import Mathlib

/-! Verification development for the CoSi consensus core of the Mixin kernel
(src/kernel/cosi.go and the rpc read path).  The Go functions are shallowly
embedded as pure Lean functions over an explicit node state; external
collaborators that live outside the embedded sources (the crypto package,
config constants, PersistStore, Peer, the clock) are supplied as explicit
oracle parameters collected in the Ext structure, and their observable
behaviour is recorded as effect events.
-/

namespace Mixin

/-- Modelled from the spec: crypto.Hash, identified by the canonical hex
string its Go String() method renders (the crypto package is outside the
embedded sources). -/
structure CHash where
  str : String
deriving DecidableEq, Repr

/-- Modelled from the spec: a Schnorr public key (abstract). -/
structure PublicKey where
  id : Nat
deriving DecidableEq, Repr

/-- Modelled from the spec: a Schnorr private key / nonce (abstract). -/
structure PrivKey where
  id : Nat
deriving DecidableEq, Repr

/-- Modelled from the spec: a commitment R, the public of a fresh nonce. -/
structure Commitment where
  key : Nat
deriving DecidableEq, Repr

/-- Modelled from the spec: a 32-byte per-signer response scalar. -/
structure Response where
  val : Nat
deriving DecidableEq, Repr

/-- Modelled from the spec: a per-signer Schnorr signature (R_i, s_i). -/
structure SchnorrSig where
  val : Nat
deriving DecidableEq, Repr

/-- Modelled from the spec: a Schnorr challenge scalar. -/
structure Chal where
  val : Nat
deriving DecidableEq, Repr

/-- Modelled from the spec: crypto.CosiSignature - aggregated commitment
with a mask of participant indices and the list of per-signer responses;
strRepr is the hex rendering produced by its Go String() method. -/
structure CosiSignature where
  strRepr : String
  mask : List Nat
  Signatures : List SchnorrSig
deriving DecidableEq, Repr

/-- common.RoundLink: the pair of round hashes a snapshot anchors to. -/
structure RoundLink where
  Self : CHash
  External : CHash
deriving DecidableEq, Repr

/-- common.Snapshot, restricted to the fields the embedded kernel code
reads.  LegacySigCount stands for len(s.Signatures) of the legacy
multi-signature list. -/
structure Snapshot where
  Version : Nat
  NodeId : CHash
  RoundNumber : Nat
  References : RoundLink
  Transaction : CHash
  Timestamp : Nat
  Hash : CHash
  Commitment : Option Commitment
  Signature : Option CosiSignature
  LegacySigCount : Nat
deriving DecidableEq, Repr

/-- Modelled from the spec: a versioned transaction, by its hash and its
transaction type. -/
structure Tx where
  hash : CHash
  ty : Nat
deriving DecidableEq, Repr

/-- kernel.CacheRound. -/
structure CacheRound where
  NodeId : CHash
  Number : Nat
  Timestamp : Nat
  References : RoundLink
  Snapshots : List Snapshot
deriving DecidableEq, Repr

/-- kernel.FinalRound. -/
structure FinalRound where
  NodeId : CHash
  Number : Nat
  Start : Nat
  End : Nat
  Hash : CHash
deriving DecidableEq, Repr

/-- common.Round as returned by PersistStore.ReadRound (the fields the
embedded code reads). -/
structure ExtRound where
  NodeId : CHash
  Number : Nat
  Timestamp : Nat
deriving DecidableEq, Repr

/-- kernel.CosiAggregator. -/
structure CosiAggregator where
  Snapshot : Snapshot
  Transaction : Tx
  WantTxs : List (CHash × Bool)
  Commitments : List (Nat × Commitment)
  Responses : List (Nat × Response)
  committed : List CHash
  responsed : List CHash
deriving DecidableEq, Repr

/-- kernel.CosiVerifier. -/
structure CosiVerifier where
  Snapshot : Snapshot
  random : PrivKey
deriving DecidableEq, Repr

/-- A consensus node record as read through node.ConsensusNodes and
getPeerConsensusNode: its signer public spend key and its accept
timestamp. -/
structure PeerInfo where
  signerPub : PublicKey
  Timestamp : Nat
deriving DecidableEq, Repr

/-- The pledging node (node.ConsensusPledging), by its network id and
signer public spend key. -/
structure PledgeNode where
  id : CHash
  pubkey : PublicKey
  Timestamp : Nat
deriving DecidableEq, Repr

/-- Association list lookup with decidable key equality (Go map read). -/
def getAssoc {α β : Type} [DecidableEq α] : List (α × β) → α → Option β
  | [], _ => none
  | (a, b) :: t, k => if a = k then some b else getAssoc t k

/-- Association list delete (Go map delete). -/
def delAssoc {α β : Type} [DecidableEq α] : List (α × β) → α → List (α × β)
  | [], _ => []
  | (a, b) :: t, k => if a = k then delAssoc t k else (a, b) :: delAssoc t k

/-- Association list insert-or-replace (Go map write). -/
def putAssoc {α β : Type} [DecidableEq α] (l : List (α × β)) (k : α) (v : β) :
    List (α × β) :=
  (k, v) :: delAssoc l k

theorem getAssoc_putAssoc_self {α β : Type} [DecidableEq α]
    (l : List (α × β)) (k : α) (v : β) : getAssoc (putAssoc l k v) k = some v := by
  simp [putAssoc, getAssoc]

theorem getAssoc_delAssoc_self {α β : Type} [DecidableEq α]
    (l : List (α × β)) (k : α) : getAssoc (delAssoc l k) k = none := by
  induction l with
  | nil => simp [delAssoc, getAssoc]
  | cons p t ih =>
    obtain ⟨a, b⟩ := p
    by_cases h : a = k
    · simp [delAssoc, h, ih]
    · simp [delAssoc, getAssoc, h, ih]

theorem getAssoc_delAssoc_ne {α β : Type} [DecidableEq α]
    (l : List (α × β)) (k k2 : α) (h : k ≠ k2) :
    getAssoc (delAssoc l k) k2 = getAssoc l k2 := by
  induction l with
  | nil => simp [delAssoc]
  | cons p t ih =>
    obtain ⟨a, b⟩ := p
    by_cases ha : a = k
    · subst ha
      simp [delAssoc, getAssoc, h, ih]
    · simp [delAssoc, getAssoc, ha, ih]

/-- The kernel round graph (node.Graph), as association lists keyed by
node id; a missing key reads as Go's zero value (nil map entry). -/
structure Graph where
  CacheRound : List (CHash × Mixin.CacheRound)
  FinalRound : List (CHash × Mixin.FinalRound)
  RoundHistory : List (CHash × List Mixin.FinalRound)
  ReverseRoundLinks : List (CHash × Nat)
  GraphTimestamp : Nat
deriving DecidableEq, Repr

/-- The cache key of a memoised CacheVerifyCosi verification.  The Go code
hashes snap || msgpack(sig) || concat(pubkeys) || threshold_u64be; the hash
being collision-free, the key is modelled as the tuple itself. -/
structure CosiCacheKey where
  snap : CHash
  sig : CosiSignature
  publics : List PublicKey
  threshold : Nat
deriving DecidableEq, Repr

/-- The memoisation cache (node.cacheStore), values are raw byte lists. -/
def CacheStore : Type := List (CosiCacheKey × List Nat)

instance : DecidableEq CacheStore := by
  unfold CacheStore
  infer_instance

/-- cacheStore.Get: Go's fastcache returns an empty slice for a miss. -/
def cacheGet (store : CacheStore) (k : CosiCacheKey) : List Nat :=
  match getAssoc store k with
  | some v => v
  | none => []

/-- cacheStore.Set. -/
def cacheSet (store : CacheStore) (k : CosiCacheKey) (v : List Nat) : CacheStore :=
  putAssoc store k v

theorem cacheGet_cacheSet_self (store : CacheStore) (k : CosiCacheKey) (v : List Nat) :
    cacheGet (cacheSet store k v) k = v := by
  simp [cacheGet, cacheSet, getAssoc_putAssoc_self]

/-- The snapshot hash of the hard-coded historical override in
CacheVerifyCosi (src/kernel/cosi.go line 1004). -/
def overrideSnapHex : String :=
  "b3ea56de6124ad2f3ad1d48f2aff8338b761e62bcde6f2f0acba63a32dd8eecc"

/-- The signature string of the hard-coded historical override in
CacheVerifyCosi (src/kernel/cosi.go line 1005). -/
def overrideSigHex : String :=
  "dbb0347be24ecb8de3d66631d347fde724ff92e22e1f45deeb8b5d843fd62da39ca8e39de9f35f1e0f7336d4686917983470c098edc91f456d577fb18069620f000000003fdfe712"

/-- Result of a CacheVerifyCosi call: the boolean verdict, the updated
cache store, whether the underlying verifier FullVerify ran, and whether
the cache store was accessed (read or written). -/
structure CVCRes where
  result : Bool
  store : CacheStore
  verifierInvoked : Bool
  cacheTouched : Bool
deriving DecidableEq

/-- The type of the FullVerify oracle: crypto.CosiSignature.FullVerify
(publics, threshold, message), outside the embedded sources. -/
def FullVerifyOracle : Type :=
  CosiSignature → List PublicKey → Nat → CHash → Bool

/-- Node.CacheVerifyCosi (src/kernel/cosi.go lines 1003-1031). -/
def CacheVerifyCosi (fv : FullVerifyOracle) (store : CacheStore) (snap : CHash)
    (sig : CosiSignature) (publics : List PublicKey) (threshold : Nat) : CVCRes :=
  if snap.str = overrideSnapHex ∧ sig.strRepr = overrideSigHex then
    { result := true, store := store, verifierInvoked := false, cacheTouched := false }
  else
    let key : CosiCacheKey := ⟨snap, sig, publics, threshold⟩
    let value := cacheGet store key
    if value.length = 1 then
      { result := value.headD 0 = 1, store := store,
        verifierInvoked := false, cacheTouched := true }
    else if ¬ fv sig publics threshold snap then
      { result := false, store := cacheSet store key [0],
        verifierInvoked := true, cacheTouched := true }
    else
      { result := true, store := cacheSet store key [1],
        verifierInvoked := true, cacheTouched := true }

/-- C2: for every publics list and threshold, CacheVerifyCosi returns true
without invoking FullVerify and without touching the cache store exactly
when the snapshot hash renders as the literal override hash and the
signature renders as the literal override signature of section 6. -/
theorem c2_historical_override (fv : FullVerifyOracle) (store : CacheStore)
    (snap : CHash) (sig : CosiSignature) (publics : List PublicKey) (threshold : Nat) :
    (let r := CacheVerifyCosi fv store snap sig publics threshold
     r.result = true ∧ r.verifierInvoked = false ∧ r.cacheTouched = false) ↔
    (snap.str = overrideSnapHex ∧ sig.strRepr = overrideSigHex) := by
  unfold CacheVerifyCosi
  by_cases h : snap.str = overrideSnapHex ∧ sig.strRepr = overrideSigHex
  · simp [h]
  · simp only [if_neg h]
    constructor
    · intro hr
      exfalso
      revert hr
      split
      · simp
      · split <;> simp
    · intro hc
      exact absurd hc h

/-- C8: for every fixed argument tuple, a repeated CacheVerifyCosi call
returns the identical verdict, and the underlying verifier FullVerify is
not invoked again on the second call (so it runs at most once per distinct
cache key). -/
theorem c8_cache_idempotence (fv : FullVerifyOracle) (store : CacheStore)
    (snap : CHash) (sig : CosiSignature) (publics : List PublicKey) (threshold : Nat) :
    (let r1 := CacheVerifyCosi fv store snap sig publics threshold
     let r2 := CacheVerifyCosi fv r1.store snap sig publics threshold
     r2.result = r1.result ∧ r2.verifierInvoked = false) := by
  unfold CacheVerifyCosi
  by_cases h : snap.str = overrideSnapHex ∧ sig.strRepr = overrideSigHex
  · simp [h]
  · simp only [if_neg h]
    by_cases h1 : (cacheGet store ⟨snap, sig, publics, threshold⟩).length = 1
    · simp [h1]
    · by_cases h2 : fv sig publics threshold snap
      · simp [h1, h2, cacheGet_cacheSet_self]
      · simp [h1, h2, cacheGet_cacheSet_self]

/-- Modelled from the spec: config constants (config package is outside
the embedded sources); the exact values are immaterial to the claims. -/
def SnapshotRoundGap : Nat := 3000000000

/-- Modelled from the spec: config.SnapshotReferenceThreshold. -/
def SnapshotReferenceThreshold : Nat := 10

/-- Modelled from the spec: config.SnapshotSyncRoundThreshold. -/
def SnapshotSyncRoundThreshold : Nat := 100

/-- Modelled from the spec: config.KernelNodeAcceptPeriodMinimum (ns). -/
def KernelNodeAcceptPeriodMinimum : Nat := 43200000000000

/-- Modelled from the spec: common.SnapshotVersion. -/
def SnapshotVersion : Nat := 1

/-- Modelled from the spec: common.TransactionTypeNodeAccept. -/
def TransactionTypeNodeAccept : Nat := 6

/-- The result triple of node.checkCacheSnapshotTransaction. -/
structure CKRes where
  tx : Option Tx
  finalized : Bool
  err : Bool
deriving DecidableEq, Repr

/-- The node state the embedded handlers read and write. -/
structure NodeState where
  IdForNetwork : CHash
  SignerSpendKey : PrivKey
  ConsensusIndex : Int
  ConsensusNodes : List (CHash × PeerInfo)
  SortedConsensusNodes : List CHash
  ConsensusPledging : Option PledgeNode
  genesisNodes : List CHash
  CosiAggregators : List (CHash × CosiAggregator)
  CosiVerifiers : List (CHash × CosiVerifier)
  Graph : Mixin.Graph
  cacheStore : CacheStore
deriving DecidableEq

/-- External collaborators of the embedded code, as oracles: the crypto
package, the clock, PersistStore reads, and node methods defined outside
src/kernel/cosi.go. -/
structure Ext where
  fullVerify : FullVerifyOracle
  checkCatchUp : Bool
  checkBroadcasted : Bool
  consensusThreshold : Nat → Nat
  consensusKeys : Nat → List PublicKey
  consensusRemovedRecently : Nat → Option PublicKey
  checkCacheTx : Snapshot → CKRes
  checkFinalTx : Snapshot → Option (Option Tx)
  payloadHash : Snapshot → CHash
  readRound : CHash → Option (Option ExtRound)
  readLink : CHash → CHash → Nat × Bool
  determinBestRound : CHash → Nat → Option FinalRound
  sealHash : CacheRound → CHash
  gapStart : CacheRound → Nat
  now : Nat
  freshKey : PrivKey
  pubOf : PrivKey → Commitment
  challenge : CosiSignature → List PublicKey → CHash → Option Chal
  signWithChallenge : PrivKey → PrivKey → CHash → Chal → SchnorrSig
  verifyWithChallenge : PublicKey → CHash → SchnorrSig → Chal → Bool
  loadResponseSignature : CosiSignature → Commitment → Response → Option SchnorrSig
  aggregateSignature : CosiSignature → Nat → SchnorrSig → Option CosiSignature
  dumpSignatureResponse : CosiSignature → SchnorrSig → Response
  withCommitment : SchnorrSig → Option Commitment → SchnorrSig
  aggregateCommitments : List (Nat × Commitment) → Option CosiSignature
  cachePutTxErr : CHash → Bool
  tryToStartNewRound : Snapshot → Option Bool
  validateSnapshot : CacheRound → Snapshot → Bool → Option CacheRound

/-- node.checkInitialAcceptSnapshotWeak (src/kernel/cosi.go 1033-1045). -/
def checkInitialAcceptSnapshotWeak (st : NodeState) (s : Snapshot) : Bool :=
  match st.ConsensusPledging with
  | none => false
  | some pledge =>
    if st.genesisNodes.contains s.NodeId then false
    else if s.NodeId ≠ pledge.id then false
    else s.RoundNumber = 0

/-- node.checkInitialAcceptSnapshot (src/kernel/cosi.go 1047-1052). -/
def checkInitialAcceptSnapshot (st : NodeState) (s : Snapshot) (tx : Tx) : Bool :=
  if (getAssoc st.Graph.FinalRound s.NodeId).isSome then false
  else checkInitialAcceptSnapshotWeak st s ∧ tx.ty = TransactionTypeNodeAccept

/-- The pledging node's signer public spend key (callers dereference
node.ConsensusPledging only when it is present). -/
def pledgePub (st : NodeState) : PublicKey :=
  match st.ConsensusPledging with
  | some p => p.pubkey
  | none => ⟨0⟩

/-- node.legacyVerifyFinalization (src/kernel/cosi.go 1101-1103). -/
def legacyVerifyFinalization (ext : Ext) (timestamp : Nat) (nsigs : Nat) : Bool :=
  nsigs ≥ ext.consensusThreshold timestamp

/-- Insertion of a key at position i of a publics list, as built by the
slice appends of verifyFinalization (src/kernel/cosi.go 1090-1092). -/
def insertAt (publics : List PublicKey) (i : Nat) (k : PublicKey) : List PublicKey :=
  publics.take i ++ [k] ++ publics.drop i

/-- The retry loop of verifyFinalization (src/kernel/cosi.go 1089-1096):
try CacheVerifyCosi with the removed node's key inserted at each index of
the given list, threading the cache store. -/
def tryRemovedPublics (fv : FullVerifyOracle) (store : CacheStore) (snapHash : CHash)
    (sig : CosiSignature) (base : Nat) (publics : List PublicKey) (rr : PublicKey) :
    List Nat → Bool × CacheStore
  | [] => (false, store)
  | i :: rest =>
    let r := CacheVerifyCosi fv store snapHash sig (insertAt publics i rr) base
    if r.result then (true, r.store)
    else tryRemovedPublics fv r.store snapHash sig base publics rr rest

/-- node.verifyFinalization (src/kernel/cosi.go 1073-1099), returning the
verdict and the cache store it leaves behind. -/
def verifyFinalization (ext : Ext) (st : NodeState) (s : Snapshot) : Bool × CacheStore :=
  if s.Version = 0 then
    (legacyVerifyFinalization ext s.Timestamp s.LegacySigCount, st.cacheStore)
  else if s.Version ≠ SnapshotVersion then (false, st.cacheStore)
  else
    match s.Signature with
    | none => (false, st.cacheStore)
    | some sig =>
      let publics0 := ext.consensusKeys s.Timestamp
      let publics := if checkInitialAcceptSnapshotWeak st s
        then publics0 ++ [pledgePub st] else publics0
      let base := ext.consensusThreshold s.Timestamp
      let r := CacheVerifyCosi ext.fullVerify st.cacheStore (ext.payloadHash s)
        sig publics base
      if r.result then (true, r.store)
      else
        match ext.consensusRemovedRecently s.Timestamp with
        | none => (false, r.store)
        | some rr =>
          tryRemovedPublics ext.fullVerify r.store (ext.payloadHash s) sig base
            publics rr (List.range publics.length)

theorem cacheGet_cacheSet_ne (store : CacheStore) (k k2 : CosiCacheKey)
    (v : List Nat) (h : k ≠ k2) : cacheGet (cacheSet store k v) k2 = cacheGet store k2 := by
  simp only [cacheGet, cacheSet, putAssoc, getAssoc, if_neg h]
  rw [getAssoc_delAssoc_ne store k k2 h]

/-- A cache store is good for a verifier oracle when every stored cosi
verification entry agrees with the oracle (the empty store is good, and
CacheVerifyCosi preserves goodness). -/
def GoodStore (fv : FullVerifyOracle) (store : CacheStore) : Prop :=
  ∀ snap sig publics threshold,
    cacheGet store ⟨snap, sig, publics, threshold⟩ = [] ∨
    cacheGet store ⟨snap, sig, publics, threshold⟩ =
      [if fv sig publics threshold snap then 1 else 0]

theorem goodStore_nil (fv : FullVerifyOracle) : GoodStore fv [] := by
  intro snap sig publics threshold
  left
  rfl

/-- On a good store, CacheVerifyCosi answers the override disjunction with
the oracle verdict. -/
theorem cacheVerifyCosi_result_char (fv : FullVerifyOracle) (store : CacheStore)
    (snap : CHash) (sig : CosiSignature) (publics : List PublicKey) (threshold : Nat)
    (hg : GoodStore fv store) :
    (CacheVerifyCosi fv store snap sig publics threshold).result =
      (decide (snap.str = overrideSnapHex ∧ sig.strRepr = overrideSigHex) ||
        fv sig publics threshold snap) := by
  unfold CacheVerifyCosi
  by_cases h : snap.str = overrideSnapHex ∧ sig.strRepr = overrideSigHex
  · simp [h]
  · simp only [if_neg h, decide_eq_true_eq]
    rcases hg snap sig publics threshold with hc | hc
    · simp only [hc]
      by_cases h2 : fv sig publics threshold snap <;> simp [h2, h]
    · simp only [hc]
      by_cases h2 : fv sig publics threshold snap <;> simp [h2, h]

theorem cacheVerifyCosi_preserves_goodStore (fv : FullVerifyOracle) (store : CacheStore)
    (snap : CHash) (sig : CosiSignature) (publics : List PublicKey) (threshold : Nat)
    (hg : GoodStore fv store) :
    GoodStore fv (CacheVerifyCosi fv store snap sig publics threshold).store := by
  unfold CacheVerifyCosi
  by_cases h : snap.str = overrideSnapHex ∧ sig.strRepr = overrideSigHex
  · simpa [h] using hg
  · simp only [if_neg h]
    by_cases h1 : (cacheGet store ⟨snap, sig, publics, threshold⟩).length = 1
    · simpa [h1] using hg
    · have hset : ∀ b : Bool,
          GoodStore fv (cacheSet store ⟨snap, sig, publics, threshold⟩
            [if fv sig publics threshold snap then 1 else 0]) := by
        intro _
        intro snap2 sig2 publics2 threshold2
        by_cases hk : (⟨snap, sig, publics, threshold⟩ : CosiCacheKey) =
            ⟨snap2, sig2, publics2, threshold2⟩
        · right
          rw [← hk, cacheGet_cacheSet_self]
          cases hk
          rfl
        · rw [cacheGet_cacheSet_ne store _ _ _ hk]
          exact hg snap2 sig2 publics2 threshold2
      by_cases h2 : fv sig publics threshold snap
      · simpa [h1, h2] using hset true
      · simpa [h1, h2] using hset false

/-- The retry loop of verifyFinalization succeeds exactly when the oracle
accepts some tried insertion position, provided the pair is not the
hard-coded override and the store is good. -/
theorem tryRemovedPublics_char (fv : FullVerifyOracle) (store : CacheStore)
    (snapHash : CHash) (sig : CosiSignature) (base : Nat) (publics : List PublicKey)
    (rr : PublicKey) (l : List Nat) (hg : GoodStore fv store)
    (hov : ¬(snapHash.str = overrideSnapHex ∧ sig.strRepr = overrideSigHex)) :
    ((tryRemovedPublics fv store snapHash sig base publics rr l).1 = true ↔
      ∃ i ∈ l, fv sig (insertAt publics i rr) base snapHash = true) := by
  induction l generalizing store with
  | nil => simp [tryRemovedPublics]
  | cons i rest ih =>
    simp only [tryRemovedPublics]
    have hres := cacheVerifyCosi_result_char fv store snapHash sig
      (insertAt publics i rr) base hg
    have hpres := cacheVerifyCosi_preserves_goodStore fv store snapHash sig
      (insertAt publics i rr) base hg
    by_cases h : (CacheVerifyCosi fv store snapHash sig (insertAt publics i rr) base).result
    · have hacc : fv sig (insertAt publics i rr) base snapHash = true := by
        rw [hres] at h
        simpa [hov] using h
      rw [if_pos h]
      constructor
      · intro _
        exact ⟨i, List.mem_cons_self i rest, hacc⟩
      · intro _
        rfl
    · have hfv : fv sig (insertAt publics i rr) base snapHash = false := by
        rw [hres] at h
        simpa [hov] using h
      rw [if_neg h, ih _ hpres]
      constructor
      · rintro ⟨j, hj, hfj⟩
        exact ⟨j, List.mem_cons_of_mem i hj, hfj⟩
      · rintro ⟨j, hj, hfj⟩
        rcases List.mem_cons.mp hj with hji | hjr
        · subst hji
          rw [hfj] at hfv
          cases hfv
        · exact ⟨j, hjr, hfj⟩

/-- The publics list verifyFinalization verifies against
(src/kernel/cosi.go 1080-1083): the consensus keys, with the pledger's key
appended in the initial-accept-weak case. -/
def finalizationPublics (ext : Ext) (st : NodeState) (s : Snapshot) : List PublicKey :=
  if checkInitialAcceptSnapshotWeak st s
  then ext.consensusKeys s.Timestamp ++ [pledgePub st]
  else ext.consensusKeys s.Timestamp

/-- Unfolding equation of verifyFinalization for a current-version
snapshot with an aggregated signature. -/
theorem verifyFinalization_unfold (ext : Ext) (st : NodeState) (s : Snapshot)
    (sig : CosiSignature) (hv : s.Version = SnapshotVersion) (hs : s.Signature = some sig) :
    verifyFinalization ext st s =
      (if (CacheVerifyCosi ext.fullVerify st.cacheStore (ext.payloadHash s) sig
            (finalizationPublics ext st s) (ext.consensusThreshold s.Timestamp)).result
       then (true, (CacheVerifyCosi ext.fullVerify st.cacheStore (ext.payloadHash s) sig
            (finalizationPublics ext st s) (ext.consensusThreshold s.Timestamp)).store)
       else
         match ext.consensusRemovedRecently s.Timestamp with
         | none => (false, (CacheVerifyCosi ext.fullVerify st.cacheStore (ext.payloadHash s)
             sig (finalizationPublics ext st s) (ext.consensusThreshold s.Timestamp)).store)
         | some rr =>
           tryRemovedPublics ext.fullVerify
             (CacheVerifyCosi ext.fullVerify st.cacheStore (ext.payloadHash s) sig
               (finalizationPublics ext st s) (ext.consensusThreshold s.Timestamp)).store
             (ext.payloadHash s) sig (ext.consensusThreshold s.Timestamp)
             (finalizationPublics ext st s) rr
             (List.range (finalizationPublics ext st s).length)) := by
  have h0 : ¬ (SnapshotVersion = 0) := by decide
  unfold verifyFinalization
  rw [hv, hs, if_neg h0, if_neg (by simp : ¬ (SnapshotVersion ≠ SnapshotVersion))]
  rfl

/-- Characterisation of verifyFinalization for a current-version snapshot
on a good cache store: it accepts iff the pair is the hard-coded override,
or the oracle accepts the consensus publics (pledger appended in the
initial-accept-weak case), or a recently removed node's key inserted at
some position strictly below the length of that list is accepted. -/
theorem verifyFinalization_char (ext : Ext) (st : NodeState) (s : Snapshot)
    (sig : CosiSignature) (hg : GoodStore ext.fullVerify st.cacheStore)
    (hv : s.Version = SnapshotVersion) (hs : s.Signature = some sig) :
    ((verifyFinalization ext st s).1 = true ↔
      ((ext.payloadHash s).str = overrideSnapHex ∧ sig.strRepr = overrideSigHex) ∨
      ext.fullVerify sig (finalizationPublics ext st s)
        (ext.consensusThreshold s.Timestamp) (ext.payloadHash s) = true ∨
      ∃ rr, ext.consensusRemovedRecently s.Timestamp = some rr ∧
        ∃ i < (finalizationPublics ext st s).length,
          ext.fullVerify sig (insertAt (finalizationPublics ext st s) i rr)
            (ext.consensusThreshold s.Timestamp) (ext.payloadHash s) = true) := by
  rw [verifyFinalization_unfold ext st s sig hv hs]
  set publics := finalizationPublics ext st s with hpub
  set base := ext.consensusThreshold s.Timestamp with hbase
  have hres := cacheVerifyCosi_result_char ext.fullVerify st.cacheStore
    (ext.payloadHash s) sig publics base hg
  have hpres := cacheVerifyCosi_preserves_goodStore ext.fullVerify st.cacheStore
    (ext.payloadHash s) sig publics base hg
  by_cases hov : (ext.payloadHash s).str = overrideSnapHex ∧ sig.strRepr = overrideSigHex
  · have hr1 : (CacheVerifyCosi ext.fullVerify st.cacheStore (ext.payloadHash s)
        sig publics base).result = true := by
      rw [hres]
      simp [hov]
    rw [if_pos hr1]
    simp [hov]
  · by_cases hb : ext.fullVerify sig publics base (ext.payloadHash s) = true
    · have hr1 : (CacheVerifyCosi ext.fullVerify st.cacheStore (ext.payloadHash s)
          sig publics base).result = true := by
        rw [hres]
        simp [hb]
      rw [if_pos hr1]
      simp [hb]
    · have hrf : ¬ ((CacheVerifyCosi ext.fullVerify st.cacheStore (ext.payloadHash s)
          sig publics base).result = true) := by
        rw [hres]
        simp [hov, hb]
      rw [if_neg hrf]
      cases hrr : ext.consensusRemovedRecently s.Timestamp with
      | none =>
        simp [hov, hb]
      | some rr =>
        rw [tryRemovedPublics_char ext.fullVerify _ (ext.payloadHash s) sig base
          publics rr (List.range publics.length) hpres hov]
        simp only [List.mem_range]
        constructor
        · rintro ⟨i, hi, hf⟩
          exact Or.inr (Or.inr ⟨rr, rfl, i, hi, hf⟩)
        · rintro (h | h | ⟨rr2, hrr2, i, hi, hf⟩)
          · exact absurd h hov
          · exact absurd h hb
          · cases hrr2
            exact ⟨i, hi, hf⟩

/-- Concrete public key used by the test fixtures. -/
def pk0 : PublicKey := ⟨1⟩

/-- Concrete removed-node public key used by the test fixtures. -/
def pkr : PublicKey := ⟨2⟩

/-- A concrete aggregated signature (not the override literal). -/
def sigC5 : CosiSignature := ⟨"sig-c5", [], []⟩

/-- A concrete current-version snapshot carrying sigC5. -/
def sC5 : Snapshot :=
  { Version := SnapshotVersion, NodeId := ⟨"n1"⟩, RoundNumber := 1,
    References := ⟨⟨"ra"⟩, ⟨"rb"⟩⟩, Transaction := ⟨"tx"⟩, Timestamp := 5,
    Hash := ⟨"h5"⟩, Commitment := none, Signature := some sigC5, LegacySigCount := 0 }

/-- The empty round graph. -/
def emptyGraph : Graph := ⟨[], [], [], [], 0⟩

/-- A minimal node state with empty tables and an empty cache store. -/
def stC5 : NodeState :=
  { IdForNetwork := ⟨"self"⟩, SignerSpendKey := ⟨0⟩, ConsensusIndex := 0,
    ConsensusNodes := [], SortedConsensusNodes := [], ConsensusPledging := none,
    genesisNodes := [], CosiAggregators := [], CosiVerifiers := [],
    Graph := emptyGraph, cacheStore := [] }

/-- A base oracle bundle with inert defaults; fixtures override the fields
a scenario needs. -/
def extBase : Ext :=
  { fullVerify := fun _ _ _ _ => false
    checkCatchUp := true
    checkBroadcasted := true
    consensusThreshold := fun _ => 1
    consensusKeys := fun _ => []
    consensusRemovedRecently := fun _ => none
    checkCacheTx := fun _ => ⟨none, false, false⟩
    checkFinalTx := fun _ => some none
    payloadHash := fun s => s.Hash
    readRound := fun _ => some none
    readLink := fun _ _ => (0, false)
    determinBestRound := fun _ _ => none
    sealHash := fun _ => ⟨"seal"⟩
    gapStart := fun c => c.Timestamp
    now := 0
    freshKey := ⟨7⟩
    pubOf := fun k => ⟨k.id⟩
    challenge := fun _ _ _ => none
    signWithChallenge := fun _ _ _ _ => ⟨0⟩
    verifyWithChallenge := fun _ _ _ _ => true
    loadResponseSignature := fun _ _ _ => none
    aggregateSignature := fun _ _ _ => none
    dumpSignatureResponse := fun _ _ => ⟨0⟩
    withCommitment := fun s _ => s
    aggregateCommitments := fun _ => none
    cachePutTxErr := fun _ => false
    tryToStartNewRound := fun _ => some false
    validateSnapshot := fun _ _ _ => none }

/-- Oracles for the C5 scenario: one consensus key, a recently removed
node whose key only verifies when inserted at the very end of the list. -/
def extC5 : Ext :=
  { extBase with
    fullVerify := fun _ pubs _ _ => decide (pubs = [pk0, pkr])
    consensusKeys := fun _ => [pk0]
    consensusRemovedRecently := fun _ => some pkr }

/-- C5 counterexample: verifyFinalization returns false although inserting
the removed node's key at position len(publics) (the end) verifies - the
code only tries the len(publics) positions 0..len-1, not len(publics)+1
positions as claimed. -/
theorem c5_counterexample :
    (verifyFinalization extC5 stC5 sC5).1 = false ∧
    (CacheVerifyCosi extC5.fullVerify stC5.cacheStore (extC5.payloadHash sC5) sigC5
      (insertAt (finalizationPublics extC5 stC5 sC5)
        (finalizationPublics extC5 stC5 sC5).length pkr)
      (extC5.consensusThreshold sC5.Timestamp)).result = true := by
  decide

/-- C5 (amended): for a current-version snapshot on a cache store that
agrees with the verifier, verifyFinalization returns true iff verification
passes with the current consensus publics (pledger appended in the
initial-accept-weak case) or the pair is the hard-coded override, or, when
a node was recently removed, with that node's public key inserted at some
single position i < len(publics) - only the len(publics) positions before
each existing element are tried, never the end position. -/
theorem c5_verify_finalization_insertions (ext : Ext) (st : NodeState) (s : Snapshot)
    (sig : CosiSignature) (hg : GoodStore ext.fullVerify st.cacheStore)
    (hv : s.Version = SnapshotVersion) (hs : s.Signature = some sig) :
    ((verifyFinalization ext st s).1 = true ↔
      ((ext.payloadHash s).str = overrideSnapHex ∧ sig.strRepr = overrideSigHex) ∨
      ext.fullVerify sig (finalizationPublics ext st s)
        (ext.consensusThreshold s.Timestamp) (ext.payloadHash s) = true ∨
      ∃ rr, ext.consensusRemovedRecently s.Timestamp = some rr ∧
        ∃ i < (finalizationPublics ext st s).length,
          ext.fullVerify sig (insertAt (finalizationPublics ext st s) i rr)
            (ext.consensusThreshold s.Timestamp) (ext.payloadHash s) = true) :=
  verifyFinalization_char ext st s sig hg hv hs

/-- C5 witness: the amended characterisation instantiated at the concrete
C5 scenario. -/
theorem c5_witness :
    ((verifyFinalization extC5 stC5 sC5).1 = true ↔
      ((extC5.payloadHash sC5).str = overrideSnapHex ∧ sigC5.strRepr = overrideSigHex) ∨
      extC5.fullVerify sigC5 (finalizationPublics extC5 stC5 sC5)
        (extC5.consensusThreshold sC5.Timestamp) (extC5.payloadHash sC5) = true ∨
      ∃ rr, extC5.consensusRemovedRecently sC5.Timestamp = some rr ∧
        ∃ i < (finalizationPublics extC5 stC5 sC5).length,
          extC5.fullVerify sigC5 (insertAt (finalizationPublics extC5 stC5 sC5) i rr)
            (extC5.consensusThreshold sC5.Timestamp) (extC5.payloadHash sC5) = true) :=
  c5_verify_finalization_insertions extC5 stC5 sC5 sigC5
    (goodStore_nil extC5.fullVerify) rfl rfl

/-- Modelled from the spec: CacheRound.asFinal seals the cache round into
a FinalRound (start at the first snapshot, hash over the ordered
snapshots); it returns none exactly when the cache holds no snapshots. -/
def asFinal (sealHash : CacheRound → CHash) (c : CacheRound) : Option FinalRound :=
  match c.Snapshots with
  | [] => none
  | s0 :: _ =>
    some { NodeId := c.NodeId, Number := c.Number, Start := s0.Timestamp,
           End := c.Timestamp, Hash := sealHash c }

theorem asFinal_ne_nil (sealHash : CacheRound → CHash) (c : CacheRound)
    (f : FinalRound) (h : asFinal sealHash c = some f) : c.Snapshots ≠ [] := by
  intro hnil
  rw [asFinal, hnil] at h
  cases h

/-- The error returns of startNewRound, by message. -/
inductive SNRErr
  | notCollected
  | selfMismatch
  | readRound
  | externalNotCollected
  | tooEarlyBehind
  | timestampLater
  | bestTooEarly
  | reverseRef
  | readLink
deriving DecidableEq, Repr

/-- The outcome of startNewRound: a Go panic, or the (final?, dummy, err?)
return triple together with the node state left behind (cache store
written by verifyFinalization, reverse round links possibly advanced). -/
inductive SNROut
  | panicked
  | ret (final : Option FinalRound) (dummy : Bool) (err : Option SNRErr) (st : NodeState)
deriving DecidableEq

/-- node.startNewRound (src/kernel/cosi.go lines 913-966). -/
def startNewRound (ext : Ext) (st : NodeState) (s : Snapshot) (cache : CacheRound)
    (allowDummy : Bool) : SNROut :=
  if s.RoundNumber ≠ cache.Number + 1 then .panicked
  else
    match asFinal ext.sealHash cache with
    | none => .ret none false (some .notCollected) st
    | some final =>
      if s.References.Self ≠ final.Hash then .ret none false (some .selfMismatch) st
      else
        let vf := verifyFinalization ext st s
        let finalized := vf.1
        let st1 : NodeState := { st with cacheStore := vf.2 }
        match ext.readRound s.References.External with
        | none => .ret none false (some .readRound) st1
        | some none =>
          if finalized ∧ allowDummy then .ret (some final) true none st1
          else .ret none false (some .externalNotCollected) st1
        | some (some external) =>
          if final.NodeId = external.NodeId then .ret none false none st1
          else if ¬ st1.genesisNodes.contains external.NodeId ∧
              external.Number < 7 + SnapshotReferenceThreshold then
            .ret none false none st1
          else
            let freshness : Option SNROut :=
              if finalized then none
              else
                match getAssoc st1.Graph.FinalRound external.NodeId with
                | none => some .panicked
                | some fr =>
                  if external.Number + SnapshotSyncRoundThreshold < fr.Number then
                    some (.ret none false (some .tooEarlyBehind) st1)
                  else if external.Timestamp > s.Timestamp then
                    some (.ret none false (some .timestampLater) st1)
                  else
                    match ext.determinBestRound s.NodeId s.Timestamp with
                    | some best =>
                      if external.Timestamp +
                          SnapshotReferenceThreshold * SnapshotRoundGap * 64 <
                            best.Start then
                        some (.ret none false (some .bestTooEarly) st1)
                      else none
                    | none => none
            match freshness with
            | some out => out
            | none =>
              let lk := ext.readLink s.NodeId external.NodeId
              let linkErr : Option SNRErr := if lk.2 then some .readLink else none
              if external.Number < lk.1 then .ret none false linkErr st1
              else if external.NodeId = st1.IdForNetwork then
                let l := (getAssoc st1.Graph.ReverseRoundLinks s.NodeId).getD 0
                if external.Number < l then .ret none false (some .reverseRef) st1
                else
                  .ret (some final) false linkErr
                    { st1 with Graph := { st1.Graph with
                      ReverseRoundLinks :=
                        putAssoc st1.Graph.ReverseRoundLinks s.NodeId external.Number } }
              else .ret (some final) false linkErr st1

/-- node.assignNewGraphRound (src/kernel/cosi.go lines 968-983); none
models the Go panic (mismatched node ids, non-contiguous history advance,
or indexing an empty history). -/
def assignNewGraphRound (g : Graph) (final : FinalRound) (cache : CacheRound) :
    Option Graph :=
  if final.NodeId ≠ cache.NodeId then none
  else
    let g1 : Graph := { g with
      CacheRound := putAssoc g.CacheRound final.NodeId cache
      FinalRound := putAssoc g.FinalRound final.NodeId final }
    let history := (getAssoc g1.RoundHistory final.NodeId).getD []
    if history.length = 0 ∧ final.Number = 0 then
      some { g1 with
        RoundHistory := putAssoc g1.RoundHistory final.NodeId (history ++ [final]) }
    else
      match history.getLast? with
      | none => none
      | some last =>
        if last.Number > final.Number then none
        else if last.Number + 1 < final.Number then none
        else if last.Number + 1 = final.Number then
          some { g1 with
            RoundHistory := putAssoc g1.RoundHistory final.NodeId (history ++ [final]) }
        else some g1

/-- A cache round at number 0 with no snapshots. -/
def cacheW4 : CacheRound :=
  { NodeId := ⟨"n1"⟩, Number := 0, Timestamp := 0,
    References := ⟨⟨"ra"⟩, ⟨"rb"⟩⟩, Snapshots := [] }

/-- The aggregated signature rendering as the hard-coded override
literal. -/
def sigOv : CosiSignature := ⟨overrideSigHex, [], []⟩

/-- A snapshot whose payload hash and signature render as the hard-coded
override pair, so verifyFinalization accepts it. -/
def sOv : Snapshot :=
  { Version := SnapshotVersion, NodeId := ⟨"n1"⟩, RoundNumber := 1,
    References := ⟨⟨"ra"⟩, ⟨"rb"⟩⟩, Transaction := ⟨"tx"⟩, Timestamp := 5,
    Hash := ⟨overrideSnapHex⟩, Commitment := none, Signature := some sigOv,
    LegacySigCount := 0 }

/-- C4 counterexample: a snapshot with a valid aggregated signature
(verifyFinalization accepts it) and allow_dummy set still gets the error
"not collected yet" when the cache holds no snapshots - no dummy round is
returned in that case. -/
theorem c4_counterexample :
    (verifyFinalization extBase stC5 sOv).1 = true ∧
    startNewRound extBase stC5 sOv cacheW4 true =
      .ret none false (some .notCollected) stC5 := by
  decide

/-- C4 (amended): with s.RoundNumber == cache.Number + 1 and an empty
cache, startNewRound returns the error "not collected yet" regardless of
allow_dummy and of the snapshot's signature; a dummy round is returned
only when the cache is non-empty, allow_dummy is set, the snapshot
verifies as finalized, and the external reference round is missing. -/
theorem c4_empty_cache_not_collected (ext : Ext) (st : NodeState) (s : Snapshot)
    (cache : CacheRound) (allowDummy : Bool) (hr : s.RoundNumber = cache.Number + 1) :
    (cache.Snapshots = [] →
      startNewRound ext st s cache allowDummy =
        .ret none false (some .notCollected) st) ∧
    (∀ f e st2, startNewRound ext st s cache allowDummy = .ret (some f) true e st2 →
      cache.Snapshots ≠ [] ∧ allowDummy = true ∧
        (verifyFinalization ext st s).1 = true ∧
        ext.readRound s.References.External = some none) := by
  constructor
  · intro he
    have hAF : asFinal ext.sealHash cache = none := by
      rw [asFinal, he]
    simp only [startNewRound]
    rw [if_neg (by simp [hr])]
    simp only [hAF]
  · intro f e st2 hst
    simp only [startNewRound] at hst
    rw [if_neg (by simp [hr])] at hst
    cases hAF : asFinal ext.sealHash cache with
    | none =>
      simp only [hAF] at hst
      simp at hst
    | some final =>
      simp only [hAF] at hst
      by_cases h2 : s.References.Self ≠ final.Hash
      · rw [if_pos h2] at hst
        simp at hst
      · rw [if_neg h2] at hst
        cases hRR : ext.readRound s.References.External with
        | none =>
          simp only [hRR] at hst
          simp at hst
        | some ro =>
          cases ro with
          | none =>
            simp only [hRR] at hst
            by_cases h3 : (verifyFinalization ext st s).1 = true ∧ allowDummy = true
            · exact ⟨asFinal_ne_nil _ _ _ hAF, h3.2, h3.1, rfl⟩
            · rw [if_neg h3] at hst
              simp at hst
          | some external =>
            simp only [hRR] at hst
            split at hst
            · simp at hst
            · split at hst
              · simp at hst
              · split at hst
                · next out heq =>
                  split at heq
                  · cases heq
                  · split at heq
                    · rw [Option.some_inj] at heq
                      rw [← heq] at hst
                      cases hst
                    · split at heq
                      · rw [Option.some_inj] at heq
                        rw [← heq] at hst
                        simp at hst
                      · split at heq
                        · rw [Option.some_inj] at heq
                          rw [← heq] at hst
                          simp at hst
                        · split at heq
                          · split at heq
                            · rw [Option.some_inj] at heq
                              rw [← heq] at hst
                              simp at hst
                            · cases heq
                          · cases heq
                · split at hst
                  · simp at hst
                  · split at hst
                    · split at hst
                      · simp at hst
                      · simp at hst
                    · simp at hst

/-- C4 witness: the amended statement instantiated at a concrete empty
cache with allow_dummy set. -/
theorem c4_witness :
    startNewRound extBase stC5 sOv cacheW4 true =
      .ret none false (some .notCollected) stC5 :=
  (c4_empty_cache_not_collected extBase stC5 sOv cacheW4 true rfl).1 rfl

/-- C7: assignNewGraphRound (for matching node ids) replaces the cache and
final rounds and appends to the history exactly on a contiguous advance
(first entry at number 0, or last history number plus 1); a gap above
last+1 or a number below the last is a panic; an equal number replaces
without appending; so the recorded history numbers never decrease and
grow by exactly 1 per append. -/
theorem c7_assign_new_graph_round (g : Graph) (final : FinalRound) (cache : CacheRound)
    (hn : final.NodeId = cache.NodeId) :
    ((getAssoc g.RoundHistory final.NodeId).getD [] = [] → final.Number = 0 →
       assignNewGraphRound g final cache = some { g with
         CacheRound := putAssoc g.CacheRound final.NodeId cache
         FinalRound := putAssoc g.FinalRound final.NodeId final
         RoundHistory := putAssoc g.RoundHistory final.NodeId
           ((getAssoc g.RoundHistory final.NodeId).getD [] ++ [final]) }) ∧
    ((getAssoc g.RoundHistory final.NodeId).getD [] = [] → final.Number ≠ 0 →
       assignNewGraphRound g final cache = none) ∧
    (∀ last, ((getAssoc g.RoundHistory final.NodeId).getD []).getLast? = some last →
      (final.Number = last.Number + 1 →
         assignNewGraphRound g final cache = some { g with
           CacheRound := putAssoc g.CacheRound final.NodeId cache
           FinalRound := putAssoc g.FinalRound final.NodeId final
           RoundHistory := putAssoc g.RoundHistory final.NodeId
             ((getAssoc g.RoundHistory final.NodeId).getD [] ++ [final]) }) ∧
      (final.Number > last.Number + 1 → assignNewGraphRound g final cache = none) ∧
      (final.Number < last.Number → assignNewGraphRound g final cache = none) ∧
      (final.Number = last.Number →
         assignNewGraphRound g final cache = some { g with
           CacheRound := putAssoc g.CacheRound final.NodeId cache
           FinalRound := putAssoc g.FinalRound final.NodeId final })) := by
  have hne : ¬ final.NodeId ≠ cache.NodeId := by simp [hn]
  refine ⟨?_, ?_, ?_⟩
  · intro h0 hz
    simp only [assignNewGraphRound, hne, if_false]
    rw [if_pos]
    exact ⟨by simp [h0], hz⟩
  · intro h0 hz
    simp only [assignNewGraphRound, hne, if_false]
    rw [if_neg (by simp [hz])]
    have hgl : ((getAssoc g.RoundHistory final.NodeId).getD []).getLast? = none := by
      rw [h0]
      rfl
    simp only [hgl]
  · intro last hlast
    have hlen : ¬ (((getAssoc g.RoundHistory final.NodeId).getD []).length = 0 ∧
        final.Number = 0) := by
      intro hc
      rw [List.length_eq_zero.mp hc.1] at hlast
      cases hlast
    refine ⟨?_, ?_, ?_, ?_⟩
    · intro hsucc
      simp only [assignNewGraphRound, hne, if_false]
      rw [if_neg hlen]
      simp only [hlast]
      rw [if_neg (by omega), if_neg (by omega), if_pos (by omega)]
    · intro hgap
      simp only [assignNewGraphRound, hne, if_false]
      rw [if_neg hlen]
      simp only [hlast]
      rw [if_neg (by omega), if_pos (by omega)]
    · intro hlt
      simp only [assignNewGraphRound, hne, if_false]
      rw [if_neg hlen]
      simp only [hlast]
      rw [if_pos (by omega)]
    · intro heqn
      simp only [assignNewGraphRound, hne, if_false]
      rw [if_neg hlen]
      simp only [hlast]
      rw [if_neg (by omega), if_neg (by omega), if_neg (by omega)]

/-- The next final round fixture for the C7 witness, at number 1. -/
def finalW7 : FinalRound :=
  { NodeId := ⟨"n1"⟩, Number := 1, Start := 0, End := 0, Hash := ⟨"f1"⟩ }

/-- The previous final round fixture for the C7 witness, at number 0. -/
def final0W7 : FinalRound :=
  { NodeId := ⟨"n1"⟩, Number := 0, Start := 0, End := 0, Hash := ⟨"f0"⟩ }

/-- The graph fixture for the C7 witness, history at number 0. -/
def gW7 : Graph :=
  { CacheRound := [], FinalRound := [], RoundHistory := [(⟨"n1"⟩, [final0W7])],
    ReverseRoundLinks := [], GraphTimestamp := 0 }

/-- C7 witness: a contiguous advance from history number 0 to 1 appends,
instantiating the claim theorem at a concrete graph. -/
theorem c7_witness :
    assignNewGraphRound gW7 finalW7 cacheW4 = some { gW7 with
      CacheRound := putAssoc gW7.CacheRound finalW7.NodeId cacheW4
      FinalRound := putAssoc gW7.FinalRound finalW7.NodeId finalW7
      RoundHistory := putAssoc gW7.RoundHistory finalW7.NodeId
        (((getAssoc gW7.RoundHistory finalW7.NodeId).getD []) ++ [finalW7]) } :=
  ((c7_assign_new_graph_round gW7 finalW7 cacheW4 rfl).2.2
    final0W7 (by rfl)).1 rfl

/-- A plain already-sealed snapshot populating the C9 cache fixture. -/
def snapPlain : Snapshot :=
  { Version := SnapshotVersion, NodeId := ⟨"n1"⟩, RoundNumber := 0,
    References := ⟨⟨"x"⟩, ⟨"y"⟩⟩, Transaction := ⟨"t0"⟩, Timestamp := 1,
    Hash := ⟨"h0"⟩, Commitment := none, Signature := none, LegacySigCount := 0 }

/-- A non-empty cache round at number 0 for the C9 scenario. -/
def cache9 : CacheRound :=
  { NodeId := ⟨"n1"⟩, Number := 0, Timestamp := 2,
    References := ⟨⟨"x"⟩, ⟨"y"⟩⟩, Snapshots := [snapPlain] }

/-- The sealed round cache9 turns into. -/
def final9 : FinalRound :=
  { NodeId := ⟨"n1"⟩, Number := 0, Start := 1, End := 2, Hash := ⟨"seal"⟩ }

/-- An external reference round whose timestamp is later than the C9
snapshots' timestamps. -/
def extRound9 : ExtRound := ⟨⟨"n2"⟩, 20, 100⟩

/-- A finalized snapshot (override pair) referencing extRound9. -/
def sOv9 : Snapshot :=
  { Version := SnapshotVersion, NodeId := ⟨"n1"⟩, RoundNumber := 1,
    References := ⟨⟨"seal"⟩, ⟨"ext"⟩⟩, Transaction := ⟨"tx"⟩, Timestamp := 5,
    Hash := ⟨overrideSnapHex⟩, Commitment := none, Signature := some sigOv,
    LegacySigCount := 0 }

/-- Oracles for the C9 scenario: reading the external reference returns
extRound9. -/
def ext9 : Ext := { extBase with readRound := fun _ => some (some extRound9) }

/-- C9 counterexample: a snapshot that already verifies as finalized is
accepted by startNewRound without error although its external reference
round's timestamp (100) exceeds the snapshot's timestamp (5) - the
freshness checks are skipped for finalized snapshots. -/
theorem c9_counterexample :
    extRound9.Timestamp > sOv9.Timestamp ∧
    startNewRound ext9 stC5 sOv9 cache9 false =
      .ret (some final9) false none stC5 := by
  decide

/-- C9 (amended): for a snapshot that does not already verify as
finalized, once the structural checks pass (sealed final exists, self
reference matches, external round present, distinct node, liveness
minimum), startNewRound returns an error whenever the external round's
number is more than SnapshotSyncRoundThreshold behind the referenced
node's final round or the external round's timestamp exceeds the
snapshot's; already-finalized snapshots skip these freshness checks. -/
theorem c9_reference_freshness (ext : Ext) (st : NodeState) (s : Snapshot)
    (cache : CacheRound) (allowDummy : Bool) (final : FinalRound) (external : ExtRound)
    (fr : FinalRound)
    (hr : s.RoundNumber = cache.Number + 1)
    (hAF : asFinal ext.sealHash cache = some final)
    (hself : s.References.Self = final.Hash)
    (hfin : (verifyFinalization ext st s).1 = false)
    (hread : ext.readRound s.References.External = some (some external))
    (hne : final.NodeId ≠ external.NodeId)
    (hgen : ¬ (¬ st.genesisNodes.contains external.NodeId ∧
      external.Number < 7 + SnapshotReferenceThreshold))
    (hfr : getAssoc st.Graph.FinalRound external.NodeId = some fr)
    (hviol : external.Number + SnapshotSyncRoundThreshold < fr.Number ∨
      external.Timestamp > s.Timestamp) :
    ∃ e, startNewRound ext st s cache allowDummy =
        .ret none false (some e)
          { st with cacheStore := (verifyFinalization ext st s).2 } ∧
      (e = SNRErr.tooEarlyBehind ∨ e = SNRErr.timestampLater) := by
  simp only [startNewRound]
  rw [if_neg (by simp [hr])]
  simp only [hAF]
  rw [if_neg (by simp [hself])]
  simp only [hread, hfin, Bool.false_eq_true, if_false]
  rw [if_neg hne, if_neg hgen]
  simp only [hfr]
  by_cases hb : external.Number + SnapshotSyncRoundThreshold < fr.Number
  · rw [if_pos hb]
    exact ⟨SNRErr.tooEarlyBehind, rfl, Or.inl rfl⟩
  · rw [if_neg hb]
    have ht : external.Timestamp > s.Timestamp := hviol.resolve_left hb
    rw [if_pos ht]
    exact ⟨SNRErr.timestampLater, rfl, Or.inr rfl⟩

/-- A non-finalized snapshot referencing extRound9, for the C9 witness. -/
def s9w : Snapshot :=
  { Version := SnapshotVersion, NodeId := ⟨"n1"⟩, RoundNumber := 1,
    References := ⟨⟨"seal"⟩, ⟨"ext"⟩⟩, Transaction := ⟨"tx"⟩, Timestamp := 5,
    Hash := ⟨"h9"⟩, Commitment := none, Signature := some ⟨"plain-sig", [], []⟩,
    LegacySigCount := 0 }

/-- The referenced node's final round head for the C9 witness. -/
def frW9 : FinalRound :=
  { NodeId := ⟨"n2"⟩, Number := 0, Start := 0, End := 0, Hash := ⟨"z"⟩ }

/-- The node state for the C9 witness, knowing extRound9's node head. -/
def stC9w : NodeState :=
  { stC5 with Graph := { emptyGraph with FinalRound := [(⟨"n2"⟩, frW9)] } }

/-- C9 witness: the amended statement instantiated at a concrete
non-finalized snapshot whose external reference is later than the
snapshot. -/
theorem c9_witness :
    ∃ e, startNewRound ext9 stC9w s9w cache9 false =
        .ret none false (some e)
          { stC9w with cacheStore := (verifyFinalization ext9 stC9w s9w).2 } ∧
      (e = SNRErr.tooEarlyBehind ∨ e = SNRErr.timestampLater) :=
  c9_reference_freshness ext9 stC9w s9w cache9 false final9 extRound9 frW9
    rfl (by decide) rfl (by decide) rfl (by decide) (by decide) rfl
    (Or.inr (by decide))

/-- The error returns of the action handlers, by message. -/
inductive ErrKind
  | invalidCosiSignatureSize (n : Nat)
  | loadResponse
  | aggregateResponse
  | aggregateCommit
  | challengeFailed
  | cachePutFailed
  | readRoundFailed
  | readLinkFailed
  | startRoundFailed
  | invalidInitialType
deriving DecidableEq, Repr

/-- Observable calls a handler makes on its external collaborators
(PersistStore writes, Peer sends, node-level finalization helpers). -/
inductive Effect
  | updateFinalCache
  | queueSnapshot (peerId : CHash) (s : Snapshot) (finalized : Bool)
  | writeSnapshot (s : Snapshot)
  | startNewRoundPersist (nodeId : CHash) (number : Nat) (refs : RoundLink)
      (finalStart : Nat)
  | updateEmptyHeadRound (nodeId : CHash) (number : Nat) (refs : RoundLink)
  | sendAnnouncement (peerId : CHash) (s : Snapshot) (commitment : Commitment)
  | sendCommitment (peerId : CHash) (snapHash : CHash) (key : Commitment)
      (wantTx : Bool)
  | sendChallenge (peerId : CHash) (snapHash : CHash) (cosi : CosiSignature)
      (withTx : Bool)
  | sendResponse (peerId : CHash) (snapHash : CHash) (resp : Response)
  | sendFinalization (peerId : CHash) (s : Snapshot)
  | sendTransaction (peerId : CHash) (txHash : CHash)
  | finalizeNodeAccept (s : Snapshot)
  | reloadConsensusList (s : Snapshot)
  | cachePutTransaction (peerId : CHash) (txHash : CHash)
deriving DecidableEq, Repr

/-- The outcome of one handler invocation: a Go panic, a non-nil error
(which CosiLoop surfaces), or a successful return tagged by the path
taken. -/
inductive Outcome
  | panicked
  | dropped
  | failed (e : ErrKind)
  | accumulated
  | rejectedByCosi
  | finalizedInitial
  | finalizedNormal
  | requeued
  | queuedForRetry
  | sentCommitment
  | challenged
  | sentResponse
  | broadcastAnnouncement (h : CHash)
  | proceedFinalization (s : Snapshot) (tx : Tx)
deriving DecidableEq, Repr

/-- A handler result: outcome, successor state, and emitted effects. -/
structure HR where
  out : Outcome
  st : NodeState
  effects : List Effect
deriving DecidableEq

/-- node.getPeerConsensusNode (src/kernel/cosi.go 870-875). -/
def getPeerConsensusNode (st : NodeState) (peerId : CHash) : Option PeerInfo :=
  match st.ConsensusPledging with
  | some n =>
    if n.id = peerId then some ⟨n.pubkey, n.Timestamp⟩
    else getAssoc st.ConsensusNodes peerId
  | none => getAssoc st.ConsensusNodes peerId

/-- node.clearAndQueueSnapshotOrPanic (src/kernel/cosi.go 1062-1071):
drop the verifier and the aggregator (under both the snapshot hash and the
transaction hash) and queue a bare resubmission snapshot. -/
def clearAndQueueSnapshotOrPanic (st : NodeState) (s : Snapshot) :
    NodeState × List Effect :=
  let st1 := { st with
    CosiVerifiers := delAssoc st.CosiVerifiers s.Hash
    CosiAggregators := delAssoc (delAssoc st.CosiAggregators s.Hash) s.Transaction }
  (st1, [.queueSnapshot st.IdForNetwork
    { Version := SnapshotVersion, NodeId := s.NodeId, RoundNumber := 0,
      References := ⟨⟨""⟩, ⟨""⟩⟩, Transaction := s.Transaction, Timestamp := 0,
      Hash := ⟨""⟩, Commitment := none, Signature := none,
      LegacySigCount := 0 } false])

/-- The tail of cosiHandleResponse after the aggregation loop
(src/kernel/cosi.go lines 531-597), entered with the snapshot s1 carrying
the possibly updated signature. -/
def cosiHandleResponseTail (ext : Ext) (st : NodeState) (peerId snapHash : CHash)
    (agg : CosiAggregator) (s1 : Snapshot) (tx : Tx) (base : Nat) : HR :=
  let agg1 := { agg with Snapshot := s1, responsed := peerId :: agg.responsed }
  let st1 := { st with CosiAggregators := putAssoc st.CosiAggregators snapHash agg1 }
  if agg1.responsed.length ≠ agg1.Commitments.length then ⟨.accumulated, st1, []⟩
  else
    let publics0 := ext.consensusKeys s1.Timestamp
    let publics := if checkInitialAcceptSnapshot st s1 tx
      then publics0 ++ [pledgePub st] else publics0
    match s1.Signature with
    | none => ⟨.panicked, st1, []⟩
    | some sigAgg =>
      let r := CacheVerifyCosi ext.fullVerify st1.cacheStore snapHash sigAgg publics base
      let st2 := { st1 with cacheStore := r.store }
      if ¬ r.result then ⟨.rejectedByCosi, st2, []⟩
      else if checkInitialAcceptSnapshot st s1 tx then
        ⟨.finalizedInitial, st2,
          .finalizeNodeAccept s1 ::
            (st.ConsensusNodes.map (fun p => Effect.sendFinalization p.1 s1) ++
              [.reloadConsensusList s1])⟩
      else
        match getAssoc st.Graph.CacheRound s1.NodeId with
        | none => ⟨.panicked, st2, []⟩
        | some cache =>
          if s1.RoundNumber > cache.Number then ⟨.panicked, st2, []⟩
          else if s1.RoundNumber < cache.Number then
            let q := clearAndQueueSnapshotOrPanic st2 s1
            ⟨.requeued, q.1, q.2⟩
          else if s1.References ≠ cache.References then
            let q := clearAndQueueSnapshotOrPanic st2 s1
            ⟨.requeued, q.1, q.2⟩
          else
            match ext.validateSnapshot cache s1 false with
            | none =>
              let q := clearAndQueueSnapshotOrPanic st2 s1
              ⟨.requeued, q.1, q.2⟩
            | some _ =>
              match ext.validateSnapshot cache s1 true with
              | none => ⟨.panicked, st2, [.writeSnapshot s1]⟩
              | some cache2 =>
                ⟨.finalizedNormal,
                  { st2 with Graph := { st2.Graph with
                    CacheRound := putAssoc st2.Graph.CacheRound s1.NodeId cache2 } },
                  .writeSnapshot s1 ::
                    (st.ConsensusNodes.flatMap (fun p =>
                      (if agg1.responsed.contains p.1 then []
                       else [Effect.sendTransaction p.1 s1.Transaction]) ++
                      [Effect.sendFinalization p.1 s1]) ++
                      [.reloadConsensusList s1])⟩

/-- node.cosiHandleResponse (src/kernel/cosi.go lines 487-598). -/
def cosiHandleResponse (ext : Ext) (st : NodeState) (peerId snapHash : CHash)
    (response : Response) : HR :=
  if (getAssoc st.ConsensusNodes peerId).isNone then ⟨.dropped, st, []⟩
  else
    match getAssoc st.CosiAggregators snapHash with
    | none => ⟨.dropped, st, []⟩
    | some agg =>
      if agg.Snapshot.Hash ≠ snapHash then ⟨.dropped, st, []⟩
      else if agg.responsed.contains peerId then ⟨.dropped, st, []⟩
      else if ¬ ext.checkCatchUp ∧ ¬ checkInitialAcceptSnapshotWeak st agg.Snapshot then
        ⟨.dropped, st, []⟩
      else if agg.responsed.length ≥ agg.Commitments.length then ⟨.dropped, st, []⟩
      else
        let base := ext.consensusThreshold agg.Snapshot.Timestamp
        if agg.Commitments.length < base then ⟨.dropped, st, []⟩
        else
          let ck := ext.checkCacheTx agg.Snapshot
          if ck.err ∨ ck.finalized then ⟨.dropped, st, []⟩
          else
            match ck.tx with
            | none => ⟨.dropped, st, []⟩
            | some tx =>
              match st.SortedConsensusNodes.findIdx? (fun id => decide (id = peerId)) with
              | none => cosiHandleResponseTail ext st peerId snapHash agg agg.Snapshot tx base
              | some i =>
                match agg.Snapshot.Signature with
                | none => ⟨.panicked, st, []⟩
                | some sigCur =>
                  match getAssoc agg.Commitments i with
                  | none => ⟨.panicked, st, []⟩
                  | some commitment =>
                    match ext.loadResponseSignature sigCur commitment response with
                    | none => ⟨.failed .loadResponse, st, []⟩
                    | some rsig =>
                      match ext.aggregateSignature sigCur i rsig with
                      | none => ⟨.failed .aggregateResponse, st, []⟩
                      | some sigNew =>
                        cosiHandleResponseTail ext st peerId snapHash agg
                          { agg.Snapshot with Signature := some sigNew } tx base

/-- node.cosiHandleChallenge (src/kernel/cosi.go lines 426-485). -/
def cosiHandleChallenge (ext : Ext) (st : NodeState) (peerId snapHash : CHash)
    (cosi : CosiSignature) (mtx : Option Tx) : HR :=
  if st.ConsensusIndex < 0 ∨ ¬ ext.checkCatchUp then ⟨.dropped, st, []⟩
  else if (getPeerConsensusNode st peerId).isNone then ⟨.dropped, st, []⟩
  else
    match getAssoc st.CosiVerifiers snapHash with
    | none => ⟨.dropped, st, []⟩
    | some v =>
      if v.Snapshot.Hash ≠ snapHash then ⟨.dropped, st, []⟩
      else
        let putEffects : List Effect := match mtx with
          | some t => [.cachePutTransaction peerId t.hash]
          | none => []
        if (match mtx with | some t => ext.cachePutTxErr t.hash | none => false) then
          ⟨.failed .cachePutFailed, st, putEffects⟩
        else
          let s := v.Snapshot
          let threshold := SnapshotRoundGap * SnapshotReferenceThreshold
          if s.Timestamp > ext.now + threshold then ⟨.dropped, st, putEffects⟩
          else if s.Timestamp + threshold * 2 < st.Graph.GraphTimestamp then
            ⟨.dropped, st, putEffects⟩
          else
            let ck := ext.checkCacheTx s
            if ck.err ∨ ck.finalized then ⟨.dropped, st, putEffects⟩
            else
              match ck.tx with
              | none => ⟨.dropped, st, putEffects⟩
              | some tx =>
                match getPeerConsensusNode st s.NodeId with
                | none => ⟨.panicked, st, putEffects⟩
                | some cn =>
                  let pub := cn.signerPub
                  let publics0 := ext.consensusKeys s.Timestamp
                  let publics := if checkInitialAcceptSnapshot st s tx
                    then publics0 ++ [pledgePub st] else publics0
                  match ext.challenge cosi publics snapHash with
                  | none => ⟨.dropped, st, putEffects⟩
                  | some chal =>
                    if cosi.Signatures.length ≠ 1 then
                      ⟨.failed (.invalidCosiSignatureSize cosi.Signatures.length), st,
                        putEffects⟩
                    else
                      match cosi.Signatures with
                      | [] => ⟨.panicked, st, putEffects⟩
                      | sig0 :: _ =>
                        let sigw := ext.withCommitment sig0 s.Commitment
                        if ¬ ext.verifyWithChallenge pub snapHash sigw chal then
                          ⟨.dropped, st, putEffects⟩
                        else
                          let resp := ext.dumpSignatureResponse cosi
                            (ext.signWithChallenge st.SignerSpendKey v.random snapHash chal)
                          ⟨.sentResponse, st,
                            putEffects ++ [.sendResponse peerId snapHash resp]⟩

/-- The common tail of cosiHandleAnnouncement (src/kernel/cosi.go lines
336-343): assign the round, validate the snapshot against the (possibly
fresh) cache, register the verifier and send the commitment. -/
def cosiHandleAnnouncementTail (ext : Ext) (st : NodeState) (s : Snapshot)
    (v : CosiVerifier) (final : FinalRound) (cache : CacheRound) (wantTx : Bool)
    (effs : List Effect) : HR :=
  match assignNewGraphRound st.Graph final cache with
  | none => ⟨.panicked, st, effs⟩
  | some g1 =>
    let st1 := { st with Graph := g1 }
    match ext.validateSnapshot cache s false with
    | none => ⟨.dropped, st1, effs⟩
    | some _ =>
      ⟨.sentCommitment,
        { st1 with CosiVerifiers := putAssoc st1.CosiVerifiers s.Hash v },
        effs ++ [.sendCommitment s.NodeId s.Hash (ext.pubOf v.random) wantTx]⟩

/-- node.cosiHandleAnnouncement (src/kernel/cosi.go lines 230-344). -/
def cosiHandleAnnouncement (ext : Ext) (st : NodeState) (peerId : CHash)
    (s : Snapshot) : HR :=
  if st.ConsensusIndex < 0 ∨ ¬ ext.checkCatchUp then ⟨.dropped, st, []⟩
  else
    match getPeerConsensusNode st peerId with
    | none => ⟨.dropped, st, []⟩
    | some cn =>
      if cn.Timestamp + KernelNodeAcceptPeriodMinimum ≥ s.Timestamp ∧
          ¬ st.genesisNodes.contains peerId then ⟨.dropped, st, []⟩
      else if s.NodeId = st.IdForNetwork ∨ s.NodeId ≠ peerId then ⟨.panicked, st, []⟩
      else if s.Version ≠ SnapshotVersion ∨ s.Signature.isSome ∨ s.Timestamp = 0 then
        ⟨.dropped, st, []⟩
      else
        let threshold := SnapshotRoundGap * SnapshotReferenceThreshold
        if s.Timestamp > ext.now + threshold then ⟨.dropped, st, []⟩
        else if s.Timestamp + threshold * 2 < st.Graph.GraphTimestamp then
          ⟨.dropped, st, []⟩
        else
          let ck := ext.checkCacheTx s
          if ck.err ∨ ck.finalized then ⟨.dropped, st, []⟩
          else
            let v : CosiVerifier := ⟨s, ext.freshKey⟩
            if checkInitialAcceptSnapshotWeak st s then
              ⟨.sentCommitment,
                { st with CosiVerifiers := putAssoc st.CosiVerifiers s.Hash v },
                [.sendCommitment s.NodeId s.Hash (ext.pubOf v.random) ck.tx.isNone]⟩
            else if s.RoundNumber = 0 then ⟨.dropped, st, []⟩
            else
              match getAssoc st.Graph.FinalRound s.NodeId with
              | none => ⟨.dropped, st, []⟩
              | some final =>
                match getAssoc st.Graph.CacheRound s.NodeId with
                | none => ⟨.panicked, st, []⟩
                | some cache =>
                  if s.RoundNumber < cache.Number then ⟨.dropped, st, []⟩
                  else if s.RoundNumber > cache.Number + 1 then
                    ⟨.queuedForRetry, st, [.queueSnapshot peerId s false]⟩
                  else if s.Timestamp ≤ final.Start + SnapshotRoundGap then
                    ⟨.dropped, st, []⟩
                  else if s.RoundNumber = cache.Number ∧ s.References ≠ cache.References then
                    if cache.Snapshots.length > 0 then ⟨.dropped, st, []⟩
                    else if s.References.Self ≠ cache.References.Self then ⟨.dropped, st, []⟩
                    else
                      match ext.readRound s.References.External with
                      | none => ⟨.failed .readRoundFailed, st, []⟩
                      | some none => ⟨.dropped, st, []⟩
                      | some (some external) =>
                        let lk := ext.readLink cache.NodeId external.NodeId
                        if lk.2 then ⟨.failed .readLinkFailed, st, []⟩
                        else if external.Number < lk.1 then ⟨.dropped, st, []⟩
                        else
                          let cache1 := { cache with References := s.References }
                          match assignNewGraphRound st.Graph final cache1 with
                          | none =>
                            ⟨.panicked, st,
                              [.updateEmptyHeadRound cache.NodeId cache.Number s.References]⟩
                          | some g1 =>
                            ⟨.queuedForRetry, { st with Graph := g1 },
                              [.updateEmptyHeadRound cache.NodeId cache.Number s.References,
                               .queueSnapshot peerId s false]⟩
                  else if s.RoundNumber = cache.Number + 1 then
                    match startNewRound ext st s cache false with
                    | .panicked => ⟨.panicked, st, []⟩
                    | .ret fOpt _ err st1 =>
                      if err.isSome then
                        ⟨.queuedForRetry, st1, [.queueSnapshot peerId s false]⟩
                      else
                        match fOpt with
                        | none => ⟨.dropped, st1, []⟩
                        | some round =>
                          let cache1 : CacheRound :=
                            { NodeId := s.NodeId
                              Number := s.RoundNumber
                              Timestamp := s.Timestamp
                              References := s.References
                              Snapshots := [] }
                          cosiHandleAnnouncementTail ext st1 s v round cache1 ck.tx.isNone
                            [.startNewRoundPersist cache1.NodeId cache1.Number
                              cache1.References round.Start]
                  else cosiHandleAnnouncementTail ext st s v final cache ck.tx.isNone []

/-- The 100ms wait loop of cosiSendAnnouncement (src/kernel/cosi.go lines
146-152), modelled by its postcondition: the first clock reading strictly
above cache.Timestamp. -/
def waitTimestamp (now cacheTs : Nat) : Nat :=
  if cacheTs < now then now else cacheTs + 1

/-- The closing part of cosiSendAnnouncement (src/kernel/cosi.go lines
205-227): stale-head requeue check, stamping round number, references and
hash, registering verifier and aggregator, assigning the round, and
broadcasting the announcement. -/
def sendAnnouncementFinish (ext : Ext) (st : NodeState) (s : Snapshot) (tx : Tx)
    (agg : CosiAggregator) (cache : CacheRound) (final : FinalRound)
    (effs : List Effect) : HR :=
  let cache1 := { cache with Timestamp := s.Timestamp }
  let stale := match cache1.Snapshots with
    | [] => false
    | s0 :: _ => decide (s.Timestamp > s0.Timestamp + SnapshotRoundGap * 4 / 5)
  if stale then
    let q := clearAndQueueSnapshotOrPanic st s
    ⟨.requeued, q.1, effs ++ q.2⟩
  else
    let s1 := { s with RoundNumber := cache1.Number, References := cache1.References }
    let s2 := { s1 with Hash := ext.payloadHash s1 }
    let v : CosiVerifier := ⟨s2, ext.freshKey⟩
    let R := ext.pubOf ext.freshKey
    let agg1 := { agg with
      Snapshot := s2
      Commitments := putAssoc agg.Commitments st.ConsensusIndex.toNat R
      responsed := [st.IdForNetwork] }
    match assignNewGraphRound st.Graph final cache1 with
    | none =>
      ⟨.panicked, { st with CosiVerifiers := putAssoc st.CosiVerifiers s2.Hash v }, effs⟩
    | some g1 =>
      ⟨.broadcastAnnouncement s2.Hash,
        { st with
          CosiVerifiers := putAssoc st.CosiVerifiers s2.Hash v
          CosiAggregators := putAssoc st.CosiAggregators s2.Hash agg1
          Graph := g1 },
        effs ++ st.ConsensusNodes.map (fun p => Effect.sendAnnouncement p.1 s2 R)⟩

/-- The round-alignment part of cosiSendAnnouncement (src/kernel/cosi.go
lines 154-204): re-reference an empty head round toward a better external,
or seal a gapped cache into a new round. -/
def sendAnnouncementRound (ext : Ext) (st : NodeState) (s : Snapshot) (tx : Tx)
    (agg : CosiAggregator) (cache : CacheRound) (final : FinalRound) : HR :=
  if cache.Snapshots.length = 0 then
    match ext.readRound cache.References.External with
    | none => ⟨.failed .readRoundFailed, st, []⟩
    | some none => ⟨.panicked, st, []⟩
    | some (some external) =>
      let bestOpt := ext.determinBestRound s.NodeId s.Timestamp
      let threshold := external.Timestamp +
        SnapshotReferenceThreshold * SnapshotRoundGap * 36
      match bestOpt with
      | some best =>
        if best.NodeId ≠ final.NodeId ∧ threshold < best.Start then
          let lk := ext.readLink cache.NodeId best.NodeId
          if lk.2 then ⟨.failed .readLinkFailed, st, []⟩
          else if best.Number ≤ lk.1 then
            let q := clearAndQueueSnapshotOrPanic st s
            ⟨.requeued, q.1, q.2⟩
          else
            let cache1 := { cache with References := ⟨final.Hash, best.Hash⟩ }
            match assignNewGraphRound st.Graph final cache1 with
            | none =>
              ⟨.panicked, st,
                [.updateEmptyHeadRound cache1.NodeId cache1.Number cache1.References]⟩
            | some g1 =>
              let q := clearAndQueueSnapshotOrPanic { st with Graph := g1 } s
              ⟨.requeued, q.1,
                .updateEmptyHeadRound cache1.NodeId cache1.Number cache1.References ::
                  q.2⟩
        else sendAnnouncementFinish ext st s tx agg cache final []
      | none => sendAnnouncementFinish ext st s tx agg cache final []
  else if s.Timestamp ≥ ext.gapStart cache + SnapshotRoundGap then
    match ext.determinBestRound s.NodeId s.Timestamp with
    | none =>
      let q := clearAndQueueSnapshotOrPanic st s
      ⟨.requeued, q.1, q.2⟩
    | some best =>
      if best.NodeId = final.NodeId then ⟨.panicked, st, []⟩
      else
        match asFinal ext.sealHash cache with
        | none => ⟨.panicked, st, []⟩
        | some final1 =>
          let cache1 : CacheRound :=
            { NodeId := s.NodeId
              Number := final1.Number + 1
              Timestamp := 0
              References := ⟨final1.Hash, best.Hash⟩
              Snapshots := [] }
          sendAnnouncementFinish ext st s tx agg cache1 final1
            [.startNewRoundPersist cache1.NodeId cache1.Number cache1.References
              final1.Start]
  else sendAnnouncementFinish ext st s tx agg cache final []

/-- node.cosiSendAnnouncement (src/kernel/cosi.go lines 89-228). -/
def cosiSendAnnouncement (ext : Ext) (st : NodeState) (peerId : CHash)
    (s : Snapshot) : HR :=
  if s.NodeId ≠ st.IdForNetwork ∨ s.NodeId ≠ peerId then ⟨.panicked, st, []⟩
  else if s.Version ≠ SnapshotVersion ∨ s.Signature.isSome ∨ s.Timestamp ≠ 0 then
    ⟨.dropped, st, []⟩
  else if ¬ ext.checkCatchUp ∧ ¬ checkInitialAcceptSnapshotWeak st s then
    ⟨.dropped, st, []⟩
  else
    let ck := ext.checkCacheTx s
    if ck.err ∨ ck.finalized then ⟨.dropped, st, []⟩
    else
      match ck.tx with
      | none => ⟨.dropped, st, []⟩
      | some tx =>
        let agg : CosiAggregator := ⟨s, tx, [], [], [], [], []⟩
        if checkInitialAcceptSnapshot st s tx then
          let s1 := { s with Timestamp := ext.now }
          let s2 := { s1 with Hash := ext.payloadHash s1 }
          let v : CosiVerifier := ⟨s2, ext.freshKey⟩
          let R := ext.pubOf ext.freshKey
          let agg1 := { agg with
            Snapshot := s2
            Commitments := putAssoc agg.Commitments st.SortedConsensusNodes.length R
            responsed := [st.IdForNetwork] }
          ⟨.broadcastAnnouncement s2.Hash,
            { st with
              CosiVerifiers := putAssoc st.CosiVerifiers s2.Hash v
              CosiAggregators := putAssoc st.CosiAggregators s2.Hash agg1 },
            st.ConsensusNodes.map (fun p => Effect.sendAnnouncement p.1 s2 R)⟩
        else if st.ConsensusIndex < 0 ∨ (getAssoc st.Graph.FinalRound s.NodeId).isNone then
          ⟨.dropped, st, []⟩
        else
          match getAssoc st.Graph.CacheRound s.NodeId,
              getAssoc st.Graph.FinalRound s.NodeId with
          | some cache, some final =>
            if cache.Snapshots.length = 0 ∧ ¬ ext.checkBroadcasted then
              let q := clearAndQueueSnapshotOrPanic st s
              ⟨.requeued, q.1, q.2⟩
            else
              let s1 := { s with Timestamp := waitTimestamp ext.now cache.Timestamp }
              sendAnnouncementRound ext st s1 tx agg cache final
          | _, _ => ⟨.panicked, st, []⟩

/-- node.cosiHandleCommitment (src/kernel/cosi.go lines 346-424). -/
def cosiHandleCommitment (ext : Ext) (st : NodeState) (peerId snapHash : CHash)
    (commitment : Commitment) (wantTx : Bool) : HR :=
  match getAssoc st.ConsensusNodes peerId with
  | none => ⟨.dropped, st, []⟩
  | some cn =>
    match getAssoc st.CosiAggregators snapHash with
    | none => ⟨.dropped, st, []⟩
    | some ann =>
      if ann.Snapshot.Hash ≠ snapHash then ⟨.dropped, st, []⟩
      else if ann.committed.contains peerId then ⟨.dropped, st, []⟩
      else if ¬ ext.checkCatchUp ∧ ¬ checkInitialAcceptSnapshotWeak st ann.Snapshot then
        ⟨.dropped, st, []⟩
      else if cn.Timestamp + KernelNodeAcceptPeriodMinimum ≥ ann.Snapshot.Timestamp ∧
          ¬ st.genesisNodes.contains peerId then ⟨.dropped, st, []⟩
      else
        let ann1 := { ann with committed := peerId :: ann.committed }
        let st1 := { st with CosiAggregators := putAssoc st.CosiAggregators snapHash ann1 }
        let base := ext.consensusThreshold ann1.Snapshot.Timestamp
        if ann1.Commitments.length ≥ base then ⟨.accumulated, st1, []⟩
        else
          let ann2 :=
            match st.SortedConsensusNodes.findIdx? (fun id => decide (id = peerId)) with
            | some i =>
              { ann1 with
                Commitments := putAssoc ann1.Commitments i commitment
                WantTxs := putAssoc ann1.WantTxs peerId wantTx }
            | none => ann1
          let st2 := { st with CosiAggregators := putAssoc st.CosiAggregators snapHash ann2 }
          if ann2.Commitments.length < base then ⟨.accumulated, st2, []⟩
          else
            let ck := ext.checkCacheTx ann2.Snapshot
            if ck.err ∨ ck.finalized then ⟨.dropped, st2, []⟩
            else
              match ck.tx with
              | none => ⟨.dropped, st2, []⟩
              | some tx =>
                match ext.aggregateCommitments ann2.Commitments with
                | none => ⟨.failed .aggregateCommit, st2, []⟩
                | some cosi =>
                  let s1 := { ann2.Snapshot with Signature := some cosi }
                  let annSig := { ann2 with Snapshot := s1 }
                  let stSig :=
                    { st with CosiAggregators := putAssoc st.CosiAggregators snapHash annSig }
                  match getAssoc st.CosiVerifiers snapHash with
                  | none => ⟨.panicked, stSig, []⟩
                  | some v =>
                    let publics0 := ext.consensusKeys s1.Timestamp
                    let publics := if checkInitialAcceptSnapshot st s1 tx
                      then publics0 ++ [pledgePub st] else publics0
                    match ext.challenge cosi publics snapHash with
                    | none => ⟨.failed .challengeFailed, stSig, []⟩
                    | some chal =>
                      let signature :=
                        ext.signWithChallenge st.SignerSpendKey v.random snapHash chal
                      let idx := if checkInitialAcceptSnapshot st s1 tx
                        then st.SortedConsensusNodes.length else st.ConsensusIndex.toNat
                      let cosi1 := (ext.aggregateSignature cosi idx signature).getD cosi
                      let s2 := { s1 with Signature := some cosi1 }
                      let ann3 := { annSig with Snapshot := s2 }
                      let st3 :=
                        { st with CosiAggregators := putAssoc st.CosiAggregators snapHash ann3 }
                      ⟨.challenged, st3,
                        st.ConsensusNodes.filterMap (fun p =>
                          match getAssoc ann3.WantTxs p.1 with
                          | none => none
                          | some w => some (Effect.sendChallenge p.1 snapHash cosi1 w))⟩

/-- node.handleFinalization (src/kernel/cosi.go lines 688-730); the final
call into cosiHandleFinalization is represented by the proceedFinalization
outcome carrying the snapshot and transaction it dispatches. -/
def handleFinalization (ext : Ext) (st : NodeState) (peerId : CHash)
    (s0 : Snapshot) : HR :=
  let s := { s0 with Hash := ext.payloadHash s0 }
  let vf := verifyFinalization ext st s
  let st1 := { st with cacheStore := vf.2 }
  if ¬ vf.1 then ⟨.dropped, st1, []⟩
  else
    let early : Option HR :=
      match getAssoc st.Graph.CacheRound s.NodeId with
      | none => none
      | some cache =>
        if s.RoundNumber < cache.Number then some ⟨.dropped, st1, []⟩
        else if s.RoundNumber > cache.Number + 1 then
          some ⟨.queuedForRetry, st1, [.queueSnapshot peerId s true]⟩
        else none
    match early with
    | some hr => hr
    | none =>
      match ext.tryToStartNewRound s with
      | none => ⟨.queuedForRetry, st1, [.queueSnapshot peerId s true]⟩
      | some true => ⟨.queuedForRetry, st1, [.queueSnapshot peerId s true]⟩
      | some false =>
        match ext.checkFinalTx s with
        | none => ⟨.queuedForRetry, st1, [.queueSnapshot peerId s true]⟩
        | some none => ⟨.dropped, st1, []⟩
        | some (some tx) =>
          if s.RoundNumber = 0 ∧ tx.ty ≠ TransactionTypeNodeAccept then
            ⟨.failed .invalidInitialType, st1, []⟩
          else ⟨.proceedFinalization s tx, st1, []⟩

/-- A CosiAction as a tagged variant over the six kinds. -/
inductive CosiActionM
  | selfEmpty (peerId : CHash) (s : Snapshot)
  | selfCommitment (peerId snapHash : CHash) (commitment : Commitment) (wantTx : Bool)
  | selfResponse (peerId snapHash : CHash) (response : Response)
  | externalAnnouncement (peerId : CHash) (s : Snapshot)
  | externalChallenge (peerId snapHash : CHash) (cosi : CosiSignature) (tx : Option Tx)
  | finalization (peerId : CHash) (s : Snapshot)
deriving DecidableEq

/-- node.cosiHandleAction (src/kernel/cosi.go lines 68-87); each action
ends with Graph.UpdateFinalCache, the deferred call at line 69. -/
def cosiHandleAction (ext : Ext) (st : NodeState) : CosiActionM → HR
  | .selfEmpty peerId s =>
    let r := cosiSendAnnouncement ext st peerId s
    { r with effects := r.effects ++ [.updateFinalCache] }
  | .selfCommitment peerId snapHash c w =>
    let r := cosiHandleCommitment ext st peerId snapHash c w
    { r with effects := r.effects ++ [.updateFinalCache] }
  | .selfResponse peerId snapHash resp =>
    let r := cosiHandleResponse ext st peerId snapHash resp
    { r with effects := r.effects ++ [.updateFinalCache] }
  | .externalAnnouncement peerId s =>
    let r := cosiHandleAnnouncement ext st peerId s
    { r with effects := r.effects ++ [.updateFinalCache] }
  | .externalChallenge peerId snapHash cosi tx =>
    let r := cosiHandleChallenge ext st peerId snapHash cosi tx
    { r with effects := r.effects ++ [.updateFinalCache] }
  | .finalization peerId s =>
    let r := handleFinalization ext st peerId s
    { r with effects := r.effects ++ [.updateFinalCache] }

/-- How a CosiLoop run ends. -/
inductive LoopExit
  | drained
  | fatal (e : ErrKind)
  | crashed
deriving DecidableEq, Repr

/-- node.CosiLoop (src/kernel/cosi.go lines 52-66) over a queue of pending
actions: handlers run in order and a handler returning a non-nil error
terminates the loop with that error; a panic crashes the process. -/
def cosiLoopRun (ext : Ext) : NodeState → List CosiActionM → LoopExit × NodeState
  | st, [] => (.drained, st)
  | st, a :: rest =>
    let r := cosiHandleAction ext st a
    match r.out with
    | .failed e => (.fatal e, r.st)
    | .panicked => (.crashed, r.st)
    | _ => cosiLoopRun ext r.st rest

theorem getAssoc_delAssoc_none {α β : Type} [DecidableEq α] (l : List (α × β))
    (k k2 : α) (h : getAssoc l k = none) : getAssoc (delAssoc l k2) k = none := by
  by_cases hk : k2 = k
  · subst hk
    exact getAssoc_delAssoc_self l k2
  · rw [getAssoc_delAssoc_ne l k2 k hk]
    exact h

/-- Any finalized outcome of the response-handler tail passed the
CacheVerifyCosi guard on the incoming cache store. -/
theorem cosiHandleResponseTail_finalized_cvc (ext : Ext) (st : NodeState)
    (peerId snapHash : CHash) (agg : CosiAggregator) (s1 : Snapshot) (tx : Tx)
    (base : Nat)
    (h : (cosiHandleResponseTail ext st peerId snapHash agg s1 tx base).out =
          .finalizedInitial ∨
        (cosiHandleResponseTail ext st peerId snapHash agg s1 tx base).out =
          .finalizedNormal) :
    ∃ sigAgg publics,
      (CacheVerifyCosi ext.fullVerify st.cacheStore snapHash sigAgg publics
        base).result = true := by
  simp only [cosiHandleResponseTail] at h
  split at h
  · simp at h
  · split at h
    · simp at h
    · rename_i sigAgg heq
      split at h
      · split at h
        · simp at h
        · rename_i hres
          exact ⟨sigAgg, _, by simpa using hres⟩
      · split at h
        · simp at h
        · rename_i hres
          exact ⟨sigAgg, _, by simpa using hres⟩

/-- The response-handler tail's effect on the aggregator table at the
snapshot hash: deleted on the requeue path, still present on both
finalized paths. -/
theorem cosiHandleResponseTail_aggregators (ext : Ext) (st : NodeState)
    (peerId snapHash : CHash) (agg : CosiAggregator) (s1 : Snapshot) (tx : Tx)
    (base : Nat) (hh : s1.Hash = snapHash) :
    ((cosiHandleResponseTail ext st peerId snapHash agg s1 tx base).out = .requeued →
      getAssoc (cosiHandleResponseTail ext st peerId snapHash agg s1 tx
        base).st.CosiAggregators snapHash = none) ∧
    (((cosiHandleResponseTail ext st peerId snapHash agg s1 tx base).out =
          .finalizedInitial ∨
      (cosiHandleResponseTail ext st peerId snapHash agg s1 tx base).out =
          .finalizedNormal) →
      (getAssoc (cosiHandleResponseTail ext st peerId snapHash agg s1 tx
        base).st.CosiAggregators snapHash).isSome) := by
  have hdel : getAssoc (delAssoc (delAssoc
      (putAssoc st.CosiAggregators snapHash
        { agg with Snapshot := s1, responsed := peerId :: agg.responsed })
      s1.Hash) s1.Transaction) snapHash = none := by
    apply getAssoc_delAssoc_none
    rw [hh]
    exact getAssoc_delAssoc_self _ snapHash
  constructor
  · intro h
    simp only [cosiHandleResponseTail] at h ⊢
    by_cases h1 : (peerId :: agg.responsed).length ≠ agg.Commitments.length
    · rw [if_pos h1] at h
      simp at h
    · rw [if_neg h1] at h ⊢
      cases h2 : s1.Signature with
      | none =>
        simp only [h2] at h
        simp at h
      | some sigA =>
        simp only [h2] at h ⊢
        by_cases h3 : checkInitialAcceptSnapshot st s1 tx = true
        · simp only [if_pos h3] at h
          by_cases h4 : ¬ (CacheVerifyCosi ext.fullVerify st.cacheStore snapHash sigA
              (ext.consensusKeys s1.Timestamp ++ [pledgePub st]) base).result = true
          · rw [if_pos h4] at h
            simp at h
          · rw [if_neg h4] at h
            simp at h
        · simp only [if_neg h3] at h ⊢
          by_cases h4 : ¬ (CacheVerifyCosi ext.fullVerify st.cacheStore snapHash sigA
              (ext.consensusKeys s1.Timestamp) base).result = true
          · rw [if_pos h4] at h
            simp at h
          · rw [if_neg h4] at h ⊢
            cases h5 : getAssoc st.Graph.CacheRound s1.NodeId with
            | none =>
              simp only [h5] at h
              simp at h
            | some cache =>
              simp only [h5] at h ⊢
              by_cases h6 : s1.RoundNumber > cache.Number
              · rw [if_pos h6] at h
                simp at h
              · rw [if_neg h6] at h ⊢
                by_cases h7 : s1.RoundNumber < cache.Number
                · rw [if_pos h7]
                  simp only [clearAndQueueSnapshotOrPanic]
                  exact hdel
                · rw [if_neg h7] at h ⊢
                  by_cases h8 : s1.References ≠ cache.References
                  · rw [if_pos h8]
                    simp only [clearAndQueueSnapshotOrPanic]
                    exact hdel
                  · rw [if_neg h8] at h ⊢
                    cases h9 : ext.validateSnapshot cache s1 false with
                    | none =>
                      simp only [h9, clearAndQueueSnapshotOrPanic]
                      exact hdel
                    | some w =>
                      simp only [h9] at h
                      cases h10 : ext.validateSnapshot cache s1 true with
                      | none =>
                        simp only [h10] at h
                        simp at h
                      | some cache2 =>
                        simp only [h10] at h
                        simp at h
  · intro h
    simp only [cosiHandleResponseTail] at h ⊢
    by_cases h1 : (peerId :: agg.responsed).length ≠ agg.Commitments.length
    · rw [if_pos h1] at h
      simp at h
    · rw [if_neg h1] at h ⊢
      cases h2 : s1.Signature with
      | none =>
        simp only [h2] at h
        simp at h
      | some sigA =>
        simp only [h2] at h ⊢
        by_cases h3 : checkInitialAcceptSnapshot st s1 tx = true
        · simp only [if_pos h3] at h ⊢
          by_cases h4 : ¬ (CacheVerifyCosi ext.fullVerify st.cacheStore snapHash sigA
              (ext.consensusKeys s1.Timestamp ++ [pledgePub st]) base).result = true
          · rw [if_pos h4] at h
            simp at h
          · rw [if_neg h4]
            simp [getAssoc_putAssoc_self]
        · simp only [if_neg h3] at h ⊢
          by_cases h4 : ¬ (CacheVerifyCosi ext.fullVerify st.cacheStore snapHash sigA
              (ext.consensusKeys s1.Timestamp) base).result = true
          · rw [if_pos h4] at h
            simp at h
          · rw [if_neg h4] at h ⊢
            cases h5 : getAssoc st.Graph.CacheRound s1.NodeId with
            | none =>
              simp only [h5] at h
              simp at h
            | some cache =>
              simp only [h5] at h ⊢
              by_cases h6 : s1.RoundNumber > cache.Number
              · rw [if_pos h6] at h
                simp at h
              · rw [if_neg h6] at h ⊢
                by_cases h7 : s1.RoundNumber < cache.Number
                · rw [if_pos h7] at h
                  simp at h
                · rw [if_neg h7] at h ⊢
                  by_cases h8 : s1.References ≠ cache.References
                  · rw [if_pos h8] at h
                    simp at h
                  · rw [if_neg h8] at h ⊢
                    cases h9 : ext.validateSnapshot cache s1 false with
                    | none =>
                      simp only [h9] at h
                      simp at h
                    | some w =>
                      simp only [h9] at h ⊢
                      cases h10 : ext.validateSnapshot cache s1 true with
                      | none =>
                        simp only [h10] at h
                        simp at h
                      | some cache2 =>
                        simp only [h10]
                        simp [getAssoc_putAssoc_self]

/-- Path analysis of cosiHandleResponse: a finalized outcome passed the
CacheVerifyCosi guard and leaves the aggregator entry in the table; a
requeued outcome removes the entry. -/
theorem cosiHandleResponse_paths (ext : Ext) (st : NodeState) (peerId snapHash : CHash)
    (response : Response) :
    (((cosiHandleResponse ext st peerId snapHash response).out = .finalizedInitial ∨
      (cosiHandleResponse ext st peerId snapHash response).out = .finalizedNormal) →
      (∃ sigAgg publics threshold,
        (CacheVerifyCosi ext.fullVerify st.cacheStore snapHash sigAgg publics
          threshold).result = true) ∧
      (getAssoc (cosiHandleResponse ext st peerId snapHash
        response).st.CosiAggregators snapHash).isSome) ∧
    ((cosiHandleResponse ext st peerId snapHash response).out = .requeued →
      getAssoc (cosiHandleResponse ext st peerId snapHash
        response).st.CosiAggregators snapHash = none) := by
  suffices hgen : ∀ hr, cosiHandleResponse ext st peerId snapHash response = hr →
      (((hr.out = Outcome.finalizedInitial ∨ hr.out = Outcome.finalizedNormal) →
        (∃ sigAgg publics threshold,
          (CacheVerifyCosi ext.fullVerify st.cacheStore snapHash sigAgg publics
            threshold).result = true) ∧
        (getAssoc hr.st.CosiAggregators snapHash).isSome) ∧
      (hr.out = Outcome.requeued →
        getAssoc hr.st.CosiAggregators snapHash = none)) by
    exact hgen _ rfl
  intro hr hhr
  simp only [cosiHandleResponse] at hhr
  by_cases g1 : (getAssoc st.ConsensusNodes peerId).isNone = true
  · rw [if_pos g1] at hhr
    cases hhr
    exact ⟨fun h => by simp at h, fun h => by simp at h⟩
  · rw [if_neg g1] at hhr
    cases g2 : getAssoc st.CosiAggregators snapHash with
    | none =>
      simp only [g2] at hhr
      cases hhr
      exact ⟨fun h => by simp at h, fun h => by simp at h⟩
    | some agg =>
      simp only [g2] at hhr
      by_cases g3 : agg.Snapshot.Hash ≠ snapHash
      · rw [if_pos g3] at hhr
        cases hhr
        exact ⟨fun h => by simp at h, fun h => by simp at h⟩
      · rw [if_neg g3] at hhr
        have hh : agg.Snapshot.Hash = snapHash := not_not.mp g3
        by_cases g4 : agg.responsed.contains peerId = true
        · rw [if_pos g4] at hhr
          cases hhr
          exact ⟨fun h => by simp at h, fun h => by simp at h⟩
        · rw [if_neg g4] at hhr
          by_cases g5 : ¬ ext.checkCatchUp = true ∧
              ¬ checkInitialAcceptSnapshotWeak st agg.Snapshot = true
          · rw [if_pos g5] at hhr
            cases hhr
            exact ⟨fun h => by simp at h, fun h => by simp at h⟩
          · rw [if_neg g5] at hhr
            by_cases g6 : agg.responsed.length ≥ agg.Commitments.length
            · rw [if_pos g6] at hhr
              cases hhr
              exact ⟨fun h => by simp at h, fun h => by simp at h⟩
            · rw [if_neg g6] at hhr
              by_cases g7 : agg.Commitments.length <
                  ext.consensusThreshold agg.Snapshot.Timestamp
              · rw [if_pos g7] at hhr
                cases hhr
                exact ⟨fun h => by simp at h, fun h => by simp at h⟩
              · rw [if_neg g7] at hhr
                by_cases g8 : (ext.checkCacheTx agg.Snapshot).err = true ∨
                    (ext.checkCacheTx agg.Snapshot).finalized = true
                · rw [if_pos g8] at hhr
                  cases hhr
                  exact ⟨fun h => by simp at h, fun h => by simp at h⟩
                · rw [if_neg g8] at hhr
                  cases g9 : (ext.checkCacheTx agg.Snapshot).tx with
                  | none =>
                    simp only [g9] at hhr
                    cases hhr
                    exact ⟨fun h => by simp at h, fun h => by simp at h⟩
                  | some tx =>
                    simp only [g9] at hhr
                    cases g10 : st.SortedConsensusNodes.findIdx?
                        (fun id => decide (id = peerId)) with
                    | none =>
                      simp only [g10] at hhr
                      cases hhr
                      refine ⟨fun h => ⟨?_, (cosiHandleResponseTail_aggregators ext st
                          peerId snapHash agg agg.Snapshot tx _ hh).2 h⟩,
                        (cosiHandleResponseTail_aggregators ext st peerId snapHash agg
                          agg.Snapshot tx _ hh).1⟩
                      obtain ⟨sa, pubs, hres⟩ := cosiHandleResponseTail_finalized_cvc
                        ext st peerId snapHash agg agg.Snapshot tx _ h
                      exact ⟨sa, pubs, _, hres⟩
                    | some i =>
                      simp only [g10] at hhr
                      cases g11 : agg.Snapshot.Signature with
                      | none =>
                        simp only [g11] at hhr
                        cases hhr
                        exact ⟨fun h => by simp at h, fun h => by simp at h⟩
                      | some sigCur =>
                        simp only [g11] at hhr
                        cases g12 : getAssoc agg.Commitments i with
                        | none =>
                          simp only [g12] at hhr
                          cases hhr
                          exact ⟨fun h => by simp at h, fun h => by simp at h⟩
                        | some commitment =>
                          simp only [g12] at hhr
                          cases g13 : ext.loadResponseSignature sigCur commitment
                              response with
                          | none =>
                            simp only [g13] at hhr
                            cases hhr
                            exact ⟨fun h => by simp at h, fun h => by simp at h⟩
                          | some rsig =>
                            simp only [g13] at hhr
                            cases g14 : ext.aggregateSignature sigCur i rsig with
                            | none =>
                              simp only [g14] at hhr
                              cases hhr
                              exact ⟨fun h => by simp at h, fun h => by simp at h⟩
                            | some sigNew =>
                              simp only [g14] at hhr
                              cases hhr
                              refine ⟨fun h => ⟨?_, (cosiHandleResponseTail_aggregators
                                  ext st peerId snapHash agg
                                  { agg.Snapshot with Signature := some sigNew } tx _
                                  hh).2 h⟩,
                                (cosiHandleResponseTail_aggregators ext st peerId
                                  snapHash agg
                                  { agg.Snapshot with Signature := some sigNew } tx _
                                  hh).1⟩
                              obtain ⟨sa, pubs, hres⟩ :=
                                cosiHandleResponseTail_finalized_cvc ext st peerId
                                  snapHash agg
                                  { agg.Snapshot with Signature := some sigNew } tx _ h
                              exact ⟨sa, pubs, _, hres⟩

/-- The finish stage of a self announcement registers the aggregator under
the broadcast snapshot hash. -/
theorem sendAnnouncementFinish_creates (ext : Ext) (st : NodeState) (s : Snapshot)
    (tx : Tx) (agg : CosiAggregator) (cache : CacheRound) (final : FinalRound)
    (effs : List Effect) (h : CHash)
    (hout : (sendAnnouncementFinish ext st s tx agg cache final effs).out =
      .broadcastAnnouncement h) :
    (getAssoc (sendAnnouncementFinish ext st s tx agg cache final
      effs).st.CosiAggregators h).isSome := by
  revert hout
  suffices hgen : ∀ hr, sendAnnouncementFinish ext st s tx agg cache final effs = hr →
      hr.out = .broadcastAnnouncement h → (getAssoc hr.st.CosiAggregators h).isSome by
    exact hgen _ rfl
  intro hr hhr
  simp only [sendAnnouncementFinish] at hhr
  split at hhr
  · cases hhr
    intro hout
    simp at hout
  · split at hhr
    · cases hhr
      intro hout
      simp at hout
    · cases hhr
      intro hout
      simp only [Outcome.broadcastAnnouncement.injEq] at hout
      rw [← hout]
      simp [getAssoc_putAssoc_self]

/-- The round-alignment stage of a self announcement only broadcasts
through the finish stage, which registers the aggregator. -/
theorem sendAnnouncementRound_creates (ext : Ext) (st : NodeState) (s : Snapshot)
    (tx : Tx) (agg : CosiAggregator) (cache : CacheRound) (final : FinalRound)
    (h : CHash)
    (hout : (sendAnnouncementRound ext st s tx agg cache final).out =
      .broadcastAnnouncement h) :
    (getAssoc (sendAnnouncementRound ext st s tx agg cache
      final).st.CosiAggregators h).isSome := by
  revert hout
  suffices hgen : ∀ hr, sendAnnouncementRound ext st s tx agg cache final = hr →
      hr.out = .broadcastAnnouncement h → (getAssoc hr.st.CosiAggregators h).isSome by
    exact hgen _ rfl
  intro hr hhr
  simp only [sendAnnouncementRound] at hhr
  split at hhr
  · cases hRR : ext.readRound cache.References.External with
    | none =>
      simp only [hRR] at hhr
      cases hhr
      intro hout
      simp at hout
    | some ro =>
      cases ro with
      | none =>
        simp only [hRR] at hhr
        cases hhr
        intro hout
        simp at hout
      | some external =>
        simp only [hRR] at hhr
        cases hB : ext.determinBestRound s.NodeId s.Timestamp with
        | none =>
          simp only [hB] at hhr
          rw [← hhr]
          exact sendAnnouncementFinish_creates ext st s tx agg cache final [] h
        | some best =>
          simp only [hB] at hhr
          split at hhr
          · split at hhr
            · cases hhr
              intro hout
              simp at hout
            · split at hhr
              · cases hhr
                intro hout
                simp at hout
              · split at hhr
                · cases hhr
                  intro hout
                  simp at hout
                · cases hhr
                  intro hout
                  simp at hout
          · rw [← hhr]
            exact sendAnnouncementFinish_creates ext st s tx agg cache final [] h
  · split at hhr
    · cases hB : ext.determinBestRound s.NodeId s.Timestamp with
      | none =>
        simp only [hB] at hhr
        cases hhr
        intro hout
        simp at hout
      | some best =>
        simp only [hB] at hhr
        split at hhr
        · cases hhr
          intro hout
          simp at hout
        · cases hAF : asFinal ext.sealHash cache with
          | none =>
            simp only [hAF] at hhr
            cases hhr
            intro hout
            simp at hout
          | some final1 =>
            simp only [hAF] at hhr
            rw [← hhr]
            exact sendAnnouncementFinish_creates ext st s tx agg _ final1 _ h
    · rw [← hhr]
      exact sendAnnouncementFinish_creates ext st s tx agg cache final [] h

/-- A broadcast self announcement registers the aggregator under the
broadcast snapshot hash. -/
theorem cosiSendAnnouncement_creates (ext : Ext) (st : NodeState) (peerId : CHash)
    (s : Snapshot) (h : CHash)
    (hout : (cosiSendAnnouncement ext st peerId s).out = .broadcastAnnouncement h) :
    (getAssoc (cosiSendAnnouncement ext st peerId s).st.CosiAggregators h).isSome := by
  revert hout
  suffices hgen : ∀ hr, cosiSendAnnouncement ext st peerId s = hr →
      hr.out = .broadcastAnnouncement h → (getAssoc hr.st.CosiAggregators h).isSome by
    exact hgen _ rfl
  intro hr hhr
  simp only [cosiSendAnnouncement] at hhr
  split at hhr
  · cases hhr
    intro hout
    simp at hout
  · split at hhr
    · cases hhr
      intro hout
      simp at hout
    · split at hhr
      · cases hhr
        intro hout
        simp at hout
      · split at hhr
        · cases hhr
          intro hout
          simp at hout
        · cases hT : (ext.checkCacheTx s).tx with
          | none =>
            simp only [hT] at hhr
            cases hhr
            intro hout
            simp at hout
          | some tx =>
            simp only [hT] at hhr
            split at hhr
            · cases hhr
              intro hout
              simp only [Outcome.broadcastAnnouncement.injEq] at hout
              rw [← hout]
              simp [getAssoc_putAssoc_self]
            · split at hhr
              · cases hhr
                intro hout
                simp at hout
              · split at hhr
                · rename_i cache final heq1 heq2
                  split at hhr
                  · cases hhr
                    intro hout
                    simp at hout
                  · rw [← hhr]
                    exact sendAnnouncementRound_creates ext st _ tx _ cache final h
                · cases hhr
                  intro hout
                  simp at hout

/-- C6 (amended): the in-flight CosiAggregator entry is created under the
broadcast snapshot hash by cosiSendAnnouncement and removed from the map
on the clear-and-requeue rejection path of the response handler, but on
the finalized paths (initial-accept and normal) the entry is NOT removed:
a finalized snapshot leaves its aggregator behind in the map. -/
theorem c6_aggregator_lifecycle :
    (∀ ext st peerId s h,
      (cosiSendAnnouncement ext st peerId s).out = .broadcastAnnouncement h →
      (getAssoc (cosiSendAnnouncement ext st peerId
        s).st.CosiAggregators h).isSome) ∧
    (∀ ext st peerId snapHash response,
      (cosiHandleResponse ext st peerId snapHash response).out = .requeued →
      getAssoc (cosiHandleResponse ext st peerId snapHash
        response).st.CosiAggregators snapHash = none) ∧
    (∀ ext st peerId snapHash response,
      ((cosiHandleResponse ext st peerId snapHash response).out = .finalizedInitial ∨
       (cosiHandleResponse ext st peerId snapHash response).out = .finalizedNormal) →
      (getAssoc (cosiHandleResponse ext st peerId snapHash
        response).st.CosiAggregators snapHash).isSome) :=
  ⟨fun ext st peerId s h hout => cosiSendAnnouncement_creates ext st peerId s h hout,
   fun ext st peerId snapHash response =>
     (cosiHandleResponse_paths ext st peerId snapHash response).2,
   fun ext st peerId snapHash response h =>
     ((cosiHandleResponse_paths ext st peerId snapHash response).1 h).2⟩

/-- C1 (amended): a snapshot transitions to Finalized only after passing
CacheVerifyCosi: on a cache store that agrees with the verifier, any
snapshot the response handler finalizes has an aggregated signature whose
full verification succeeds against the publics and threshold used, except
the hard-coded historical (hash, signature) override pair, which finalizes
without the verifier; and handleFinalization proceeds only for snapshots
accepted by verifyFinalization, which again means full verification or the
override pair. -/
theorem c1_threshold_safety :
    (∀ ext st peerId snapHash response, GoodStore ext.fullVerify st.cacheStore →
      ((cosiHandleResponse ext st peerId snapHash response).out = .finalizedInitial ∨
       (cosiHandleResponse ext st peerId snapHash response).out = .finalizedNormal) →
      ∃ sigAgg publics threshold,
        (snapHash.str = overrideSnapHex ∧ sigAgg.strRepr = overrideSigHex) ∨
        ext.fullVerify sigAgg publics threshold snapHash = true) ∧
    (∀ ext st s sig, GoodStore ext.fullVerify st.cacheStore →
      s.Version = SnapshotVersion → s.Signature = some sig →
      (verifyFinalization ext st s).1 = true →
      ((ext.payloadHash s).str = overrideSnapHex ∧ sig.strRepr = overrideSigHex) ∨
      ∃ publics, ext.fullVerify sig publics (ext.consensusThreshold s.Timestamp)
        (ext.payloadHash s) = true) ∧
    (∀ ext st peerId s0 s tx,
      (handleFinalization ext st peerId s0).out = .proceedFinalization s tx →
      (verifyFinalization ext st { s0 with Hash := ext.payloadHash s0 }).1 = true) := by
  refine ⟨?_, ?_, ?_⟩
  · intro ext st peerId snapHash response hg h
    obtain ⟨sigAgg, publics, threshold, hres⟩ :=
      ((cosiHandleResponse_paths ext st peerId snapHash response).1 h).1
    rw [cacheVerifyCosi_result_char ext.fullVerify st.cacheStore snapHash sigAgg
      publics threshold hg] at hres
    rcases Bool.or_eq_true_iff.mp hres with hov | hfv
    · exact ⟨sigAgg, publics, threshold, Or.inl (decide_eq_true_eq.mp hov)⟩
    · exact ⟨sigAgg, publics, threshold, Or.inr hfv⟩
  · intro ext st s sig hg hv hs h
    rcases (verifyFinalization_char ext st s sig hg hv hs).mp h with
      hov | hfv | ⟨rr, _, i, _, hfv⟩
    · exact Or.inl hov
    · exact Or.inr ⟨finalizationPublics ext st s, hfv⟩
    · exact Or.inr ⟨insertAt (finalizationPublics ext st s) i rr, hfv⟩
  · intro ext st peerId s0 s tx h
    by_cases hv : ¬ (verifyFinalization ext st
        { s0 with Hash := ext.payloadHash s0 }).1 = true
    · exfalso
      simp only [handleFinalization] at h
      rw [if_pos hv] at h
      simp at h
    · exact not_not.mp hv

/-- The peer sending the concrete response-handler scenarios. -/
def pidR : CHash := ⟨"p1"⟩

/-- The hard-coded override snapshot hash as a CHash. -/
def hashOv : CHash := ⟨overrideSnapHex⟩

/-- A NodeAccept transaction for the initial-accept scenario. -/
def txR : Tx := ⟨⟨"tx"⟩, TransactionTypeNodeAccept⟩

/-- The pre-aggregation signature carried by the in-flight snapshot. -/
def sigR0 : CosiSignature := ⟨"sig-r0", [], []⟩

/-- The in-flight initial-accept snapshot whose hash is the override
literal. -/
def snapR : Snapshot :=
  { Version := SnapshotVersion, NodeId := ⟨"n1"⟩, RoundNumber := 0,
    References := ⟨⟨"ra"⟩, ⟨"rb"⟩⟩, Transaction := ⟨"tx"⟩, Timestamp := 5,
    Hash := hashOv, Commitment := none, Signature := some sigR0,
    LegacySigCount := 0 }

/-- The in-flight aggregator waiting for the last response. -/
def aggR : CosiAggregator :=
  { Snapshot := snapR, Transaction := txR, WantTxs := [],
    Commitments := [(0, ⟨9⟩)], Responses := [], committed := [], responsed := [] }

/-- The proposer node state for the response-handler scenarios: one
consensus peer, a pledging node, the aggregator in flight. -/
def stR : NodeState :=
  { IdForNetwork := ⟨"self"⟩, SignerSpendKey := ⟨0⟩, ConsensusIndex := 0,
    ConsensusNodes := [(pidR, ⟨pk0, 0⟩)], SortedConsensusNodes := [pidR],
    ConsensusPledging := some ⟨⟨"n1"⟩, pkr, 0⟩, genesisNodes := [],
    CosiAggregators := [(hashOv, aggR)], CosiVerifiers := [],
    Graph := emptyGraph, cacheStore := [] }

/-- The last missing response. -/
def respR : Response := ⟨1⟩

/-- Oracles for the response scenarios: aggregation yields the override
signature while the underlying verifier rejects everything. -/
def extR : Ext :=
  { extBase with
    checkCacheTx := fun _ => ⟨some txR, false, false⟩
    loadResponseSignature := fun _ _ _ => some ⟨3⟩
    aggregateSignature := fun _ _ _ => some sigOv }

/-- C1 counterexample: the response handler finalizes the override
snapshot although FullVerify rejects its aggregated signature on the
publics and threshold used. -/
theorem c1_counterexample :
    (cosiHandleResponse extR stR pidR hashOv respR).out = .finalizedInitial ∧
    extR.fullVerify sigOv (extR.consensusKeys snapR.Timestamp ++ [pledgePub stR])
      (extR.consensusThreshold snapR.Timestamp) hashOv = false := by
  decide

/-- C1 witness: the amended statement applied to the concrete override
scenario. -/
theorem c1_witness :
    ∃ sigAgg publics threshold,
      (hashOv.str = overrideSnapHex ∧ sigAgg.strRepr = overrideSigHex) ∨
      extR.fullVerify sigAgg publics threshold hashOv = true :=
  c1_threshold_safety.1 extR stR pidR hashOv respR
    (goodStore_nil extR.fullVerify) (Or.inl (by decide))

/-- C6 counterexample: the response handler finalizes the snapshot yet its
aggregator entry is still present in the CosiAggregators map afterwards. -/
theorem c6_counterexample :
    (cosiHandleResponse extR stR pidR hashOv respR).out = .finalizedInitial ∧
    (getAssoc (cosiHandleResponse extR stR pidR hashOv
      respR).st.CosiAggregators hashOv).isSome = true := by
  decide

/-- The head final round of node n1 for the C6 requeue scenario. -/
def fr6 : FinalRound :=
  { NodeId := ⟨"n1"⟩, Number := 4, Start := 0, End := 0, Hash := ⟨"f4"⟩ }

/-- The head cache round of node n1, already past the snapshot's round. -/
def cacheR6 : CacheRound :=
  { NodeId := ⟨"n1"⟩, Number := 5, Timestamp := 0,
    References := ⟨⟨"ra"⟩, ⟨"rb"⟩⟩, Snapshots := [] }

/-- The node state for the C6 requeue scenario: the snapshot's round is
behind the cache head, so the response handler clears and requeues. -/
def stR6 : NodeState :=
  { stR with Graph := { emptyGraph with
      CacheRound := [(⟨"n1"⟩, cacheR6)]
      FinalRound := [(⟨"n1"⟩, fr6)] } }

/-- C6 witness: the amended statement applied to a concrete requeue run,
where the aggregator entry is removed. -/
theorem c6_witness :
    getAssoc (cosiHandleResponse extR stR6 pidR hashOv
      respR).st.CosiAggregators hashOv = none :=
  c6_aggregator_lifecycle.2.1 extR stR6 pidR hashOv respR (by decide)

/-- C3 (amended): an ExternalChallenge whose CosiSignature does not carry
exactly one per-signer response is not silently dropped: once the earlier
guards pass, the challenge handler returns the error "invalid
CosiSignature signature size", and CosiLoop surfaces that error and
terminates the action loop. -/
theorem c3_challenge_size_error (ext : Ext) (st : NodeState) (peerId snapHash : CHash)
    (cosi : CosiSignature) (v : CosiVerifier) (tx : Tx) (chal : Chal)
    (h1 : ¬ (st.ConsensusIndex < 0 ∨ ¬ ext.checkCatchUp = true))
    (h2 : (getPeerConsensusNode st peerId).isSome)
    (h3 : getAssoc st.CosiVerifiers snapHash = some v)
    (h4 : ¬ v.Snapshot.Hash ≠ snapHash)
    (h5 : ¬ v.Snapshot.Timestamp >
      ext.now + SnapshotRoundGap * SnapshotReferenceThreshold)
    (h6 : ¬ v.Snapshot.Timestamp + SnapshotRoundGap * SnapshotReferenceThreshold * 2 <
      st.Graph.GraphTimestamp)
    (h7 : ext.checkCacheTx v.Snapshot = ⟨some tx, false, false⟩)
    (h8 : (getPeerConsensusNode st v.Snapshot.NodeId).isSome)
    (h9 : ext.challenge cosi
      (if checkInitialAcceptSnapshot st v.Snapshot tx = true
       then ext.consensusKeys v.Snapshot.Timestamp ++ [pledgePub st]
       else ext.consensusKeys v.Snapshot.Timestamp) snapHash = some chal)
    (h10 : cosi.Signatures.length ≠ 1) :
    (cosiHandleChallenge ext st peerId snapHash cosi none).out =
      .failed (.invalidCosiSignatureSize cosi.Signatures.length) ∧
    (cosiLoopRun ext st [.externalChallenge peerId snapHash cosi none]).1 =
      .fatal (.invalidCosiSignatureSize cosi.Signatures.length) := by
  obtain ⟨cn0, hcn0⟩ := Option.isSome_iff_exists.mp h2
  obtain ⟨cn1, hcn1⟩ := Option.isSome_iff_exists.mp h8
  have hmain : (cosiHandleChallenge ext st peerId snapHash cosi none).out =
      .failed (.invalidCosiSignatureSize cosi.Signatures.length) := by
    simp only [cosiHandleChallenge]
    rw [if_neg h1]
    by_cases g2 : (getPeerConsensusNode st peerId).isNone = true
    · exfalso
      rw [hcn0] at g2
      simp at g2
    · rw [if_neg g2]
      simp only [h3]
      rw [if_neg h4]
      by_cases gput : (match (none : Option Tx) with
        | some t => ext.cachePutTxErr t.hash
        | none => false) = true
      · exact absurd gput (by simp)
      · rw [if_neg gput]
        rw [if_neg h5, if_neg h6]
        by_cases g8 : (ext.checkCacheTx v.Snapshot).err = true ∨
            (ext.checkCacheTx v.Snapshot).finalized = true
        · exfalso
          rw [h7] at g8
          simp at g8
        · rw [if_neg g8]
          have gtx : (ext.checkCacheTx v.Snapshot).tx = some tx := by
            rw [h7]
          simp only [gtx, hcn1, h9]
          rw [if_pos h10]
  refine ⟨hmain, ?_⟩
  simp only [cosiLoopRun, cosiHandleAction, hmain]

/-- The verified snapshot of the C3 scenario. -/
def snapC3 : Snapshot :=
  { Version := SnapshotVersion, NodeId := pidR, RoundNumber := 1,
    References := ⟨⟨"ra"⟩, ⟨"rb"⟩⟩, Transaction := ⟨"tx"⟩, Timestamp := 5,
    Hash := ⟨"h3"⟩, Commitment := none, Signature := none, LegacySigCount := 0 }

/-- The registered verifier of the C3 scenario. -/
def vC3 : CosiVerifier := ⟨snapC3, ⟨5⟩⟩

/-- The snapshot hash of the C3 scenario. -/
def hashC3 : CHash := ⟨"h3"⟩

/-- A challenge signature carrying two per-signer responses. -/
def cosiC3 : CosiSignature := ⟨"cosi3", [0], [⟨1⟩, ⟨2⟩]⟩

/-- A challenge signature carrying zero per-signer responses. -/
def cosiC3b : CosiSignature := ⟨"cosi3b", [0], []⟩

/-- The node state of the C3 scenario: one consensus peer, a verifier
registered for the snapshot. -/
def stC3 : NodeState :=
  { stC5 with
    ConsensusNodes := [(pidR, ⟨pk0, 0⟩)]
    CosiVerifiers := [(hashC3, vC3)] }

/-- Oracles for the C3 scenario: challenge derivation succeeds and the
transaction is known. -/
def extC3 : Ext :=
  { extBase with
    challenge := fun _ _ _ => some ⟨0⟩
    checkCacheTx := fun _ => ⟨some txR, false, false⟩ }

/-- C3 counterexample: with two responses in the signature the handler
returns an error rather than success, and the action loop terminates
fatally rather than continuing. -/
theorem c3_counterexample :
    (cosiHandleChallenge extC3 stC3 pidR hashC3 cosiC3 none).out =
      .failed (.invalidCosiSignatureSize 2) ∧
    (cosiLoopRun extC3 stC3 [.externalChallenge pidR hashC3 cosiC3 none]).1 =
      .fatal (.invalidCosiSignatureSize 2) := by
  decide

/-- C3 witness: the amended statement applied to a zero-response
signature. -/
theorem c3_witness :
    (cosiHandleChallenge extC3 stC3 pidR hashC3 cosiC3b none).out =
      .failed (.invalidCosiSignatureSize cosiC3b.Signatures.length) ∧
    (cosiLoopRun extC3 stC3 [.externalChallenge pidR hashC3 cosiC3b none]).1 =
      .fatal (.invalidCosiSignatureSize cosiC3b.Signatures.length) :=
  c3_challenge_size_error extC3 stC3 pidR hashC3 cosiC3b vC3 txR ⟨0⟩
    (by decide) (by decide) rfl (by decide) (by decide) (by decide) rfl
    (by decide) rfl (by decide)

/-- C10: on the external announcement path, once the public-interface
guards pass (consensus peer, acceptable version and shape, timestamp
window, transaction check, non-initial-accept, known rounds, round number
within the cache window), a snapshot whose timestamp is at most the
current final round's start plus SnapshotRoundGap is silently dropped:
success with unchanged state and no effects. -/
theorem c10_announcement_round_gap (ext : Ext) (st : NodeState) (peerId : CHash)
    (s : Snapshot) (cn : PeerInfo) (final : FinalRound) (cache : CacheRound)
    (otx : Option Tx)
    (h1 : ¬ (st.ConsensusIndex < 0 ∨ ¬ ext.checkCatchUp = true))
    (h2 : getPeerConsensusNode st peerId = some cn)
    (h3 : ¬ (cn.Timestamp + KernelNodeAcceptPeriodMinimum ≥ s.Timestamp ∧
      ¬ st.genesisNodes.contains peerId = true))
    (h4 : ¬ (s.NodeId = st.IdForNetwork ∨ s.NodeId ≠ peerId))
    (h5 : ¬ (s.Version ≠ SnapshotVersion ∨ s.Signature.isSome = true ∨
      s.Timestamp = 0))
    (h6 : ¬ s.Timestamp > ext.now + SnapshotRoundGap * SnapshotReferenceThreshold)
    (h7 : ¬ s.Timestamp + SnapshotRoundGap * SnapshotReferenceThreshold * 2 <
      st.Graph.GraphTimestamp)
    (h8 : ext.checkCacheTx s = ⟨otx, false, false⟩)
    (h9 : checkInitialAcceptSnapshotWeak st s = false)
    (h10 : s.RoundNumber ≠ 0)
    (h11 : getAssoc st.Graph.FinalRound s.NodeId = some final)
    (h12 : getAssoc st.Graph.CacheRound s.NodeId = some cache)
    (h13 : ¬ s.RoundNumber < cache.Number)
    (h14 : ¬ s.RoundNumber > cache.Number + 1)
    (h15 : s.Timestamp ≤ final.Start + SnapshotRoundGap) :
    cosiHandleAnnouncement ext st peerId s = ⟨.dropped, st, []⟩ := by
  simp only [cosiHandleAnnouncement]
  rw [if_neg h1]
  simp only [h2]
  rw [if_neg h3, if_neg h4, if_neg h5, if_neg h6, if_neg h7]
  by_cases g8 : (ext.checkCacheTx s).err = true ∨ (ext.checkCacheTx s).finalized = true
  · exfalso
    rw [h8] at g8
    simp at g8
  · rw [if_neg g8]
    rw [if_neg (by simp [h9])]
    rw [if_neg h10]
    simp only [h11, h12]
    rw [if_neg h13, if_neg h14, if_pos h15]

/-- The consensus peer record for the C10 witness (a genesis node, so the
accept-period guard does not apply). -/
def cnC10 : PeerInfo := ⟨pk0, 0⟩

/-- The final round of the announcing node for the C10 witness. -/
def finalC10 : FinalRound :=
  { NodeId := pidR, Number := 4, Start := 1000, End := 2000, Hash := ⟨"f10"⟩ }

/-- The cache round of the announcing node for the C10 witness. -/
def cacheC10 : CacheRound :=
  { NodeId := pidR, Number := 5, Timestamp := 2000,
    References := ⟨⟨"ra"⟩, ⟨"rb"⟩⟩, Snapshots := [] }

/-- An external announcement whose timestamp sits within the round gap of
the current final round. -/
def sC10 : Snapshot :=
  { Version := SnapshotVersion, NodeId := pidR, RoundNumber := 5,
    References := ⟨⟨"ra"⟩, ⟨"rb"⟩⟩, Transaction := ⟨"tx"⟩, Timestamp := 1500,
    Hash := ⟨"h10"⟩, Commitment := none, Signature := none, LegacySigCount := 0 }

/-- The node state of the C10 witness: the announcing peer is a genesis
consensus node with known cache and final rounds. -/
def stC10 : NodeState :=
  { stC5 with
    ConsensusNodes := [(pidR, cnC10)]
    genesisNodes := [pidR]
    Graph := { emptyGraph with
      CacheRound := [(pidR, cacheC10)]
      FinalRound := [(pidR, finalC10)] } }

/-- Oracles for the C10 witness. -/
def extC10 : Ext :=
  { extBase with checkCacheTx := fun _ => ⟨some txR, false, false⟩ }

/-- C10 witness: the claim instantiated at a concrete in-gap external
announcement, which is dropped with no state change and no effects. -/
theorem c10_witness :
    cosiHandleAnnouncement extC10 stC10 pidR sC10 = ⟨.dropped, stC10, []⟩ :=
  c10_announcement_round_gap extC10 stC10 pidR sC10 cnC10 finalC10 cacheC10
    (some txR) (by decide) rfl (by decide) (by decide) (by decide) (by decide)
    (by decide) rfl (by decide) (by decide) rfl rfl (by decide) (by decide)
    (by decide)

end Mixin
